import Mathlib

/-!
Verification of the EudaAnalysis repository: shallow embedding of the
connection/formula extraction and scoring code of the analysis scripts
(excel-connection-analyzer.py, excel-analyzer-file.py,
excel-macro-analyzer.py, improved-euda-analyzer.py,
robust-euda-analyzer.py, euda-analyzer-chatbot.py) together with proofs
about the embedded functions.

Python strings are modelled as lists of characters (`PyStr`), Python ints
as `Nat`/`Int`, Python floats as `Rat` (all float values arising in the
scoring code are small dyadic rationals, and the properties proved only
depend on exact comparisons), Python exceptions as `Except`.
-/

set_option maxRecDepth 8000

namespace EudaAnalysis

/-- Python strings, modelled as lists of characters. -/
abbrev PyStr := List Char

/-- Shorthand turning a Lean string literal into the `PyStr` model. -/
def lc (s : String) : PyStr := s.toList

/-- Python `str.lower()` (the source only lowercases ASCII data). -/
def pyLower (s : PyStr) : PyStr := s.map Char.toLower

/-- Python `str.upper()` (the source only uppercases ASCII data). -/
def pyUpper (s : PyStr) : PyStr := s.map Char.toUpper

/-- Python's `needle in hay` substring test. -/
def pyIn (needle : PyStr) : PyStr → Bool
  | [] => needle.isEmpty
  | c :: t => needle.isPrefixOf (c :: t) || pyIn needle t

/-- Python's `\s` / `str.strip` whitespace class (ASCII part). -/
def pyIsSpace (c : Char) : Bool :=
  c = ' ' || c = '\t' || c = '\n' || c = '\r' || c = '\x0b' || c = '\x0c'

/-- Python `str.strip()`. -/
def pyStrip (s : PyStr) : PyStr :=
  ((s.dropWhile pyIsSpace).reverse.dropWhile pyIsSpace).reverse

/-- Scanner for Python `str.count(sub)` with explicit fuel (the fuel keeps
the recursion structural; `hay.length + 1` steps always suffice because
every step consumes at least one character of the haystack). -/
def pyCountGo (needle : PyStr) : Nat → PyStr → Nat
  | 0, _ => 0
  | _ + 1, [] => 0
  | fuel + 1, c :: t =>
    if needle.isEmpty then 0
    else if needle.isPrefixOf (c :: t) then
      1 + pyCountGo needle fuel ((c :: t).drop needle.length)
    else pyCountGo needle fuel t

/-- Python `str.count(sub)`: number of non-overlapping occurrences,
scanning left to right (only called with a non-empty `sub` in the source). -/
def pyCount (needle hay : PyStr) : Nat := pyCountGo needle (hay.length + 1) hay

/-- Character class `\w` of Python regexes, for the ASCII data appearing
in VBA source text. -/
def isWordChar (c : Char) : Bool := c.isAlpha || c.isDigit || c = '_'

/-- Whether position `i` of `s` holds a word character. -/
def wordCharAt (s : PyStr) (i : Nat) : Bool :=
  match s[i]? with
  | some c => isWordChar c
  | none => false

/-- Python regex word boundary `\b` at position `i` of `s`. -/
def boundaryAt (s : PyStr) (i : Nat) : Bool :=
  match i with
  | 0 => wordCharAt s 0
  | j + 1 => wordCharAt s j != wordCharAt s (j + 1)

/-- Case-insensitive literal match of `w` at position `i` of `s`. -/
def prefixCIAt (w s : PyStr) (i : Nat) : Bool :=
  (pyLower w).isPrefixOf (pyLower (s.drop i))

/-- Case-insensitive match of the regex fragment `\bw\b` at position `i`. -/
def wordAt (w s : PyStr) (i : Nat) : Bool :=
  boundaryAt s i && prefixCIAt w s i && boundaryAt s (i + w.length)

/-- Result of `re.search(r'\bw\b', s, re.IGNORECASE)` as a Boolean. -/
def containsWord (w s : PyStr) : Bool :=
  (List.range (s.length + 1)).any fun i => wordAt w s i

/-- Length of `re.findall(r'\bw\b', s, re.IGNORECASE)`: scan left to
right, counting non-overlapping matches; after a match the scan resumes
past it.  The fuel argument bounds the scan, `s.length + 2` steps always
suffice because the position strictly increases. -/
def findallWordGo (w s : PyStr) : Nat → Nat → Nat
  | 0, _ => 0
  | fuel + 1, i =>
    if i > s.length then 0
    else if wordAt w s i then 1 + findallWordGo w s fuel (i + max w.length 1)
    else findallWordGo w s fuel (i + 1)

/-- Length of `re.findall(r'\bw\b', s, re.IGNORECASE)`. -/
def findallCountWord (w s : PyStr) : Nat := findallWordGo w s (s.length + 2) 0

/-- Position of the first newline of `s` at or after `i` (or the length
of `s`), the limit imposed on `.*` by Python's dot-excludes-newline rule. -/
def lineEndFrom (s : PyStr) (i : Nat) : Nat :=
  i + ((s.drop i).takeWhile (fun c => c ≠ '\n')).length

/-- End position of the preferred match of `\bw1\b.*\bw2\b` (greedy `.*`,
case-insensitive) starting at position `i` of `s`, when the pattern
matches there. -/
def wgwMatchEnd (w1 w2 s : PyStr) (i : Nat) : Option Nat :=
  if wordAt w1 s i then
    let gapStart := i + w1.length
    let limit := lineEndFrom s gapStart
    match (List.range (limit + 1 - gapStart)).reverse.find?
        (fun d => wordAt w2 s (gapStart + d)) with
    | some d => some (gapStart + d + w2.length)
    | none => none
  else none

/-- Scanner for `re.findall(r'\bw1\b.*\bw2\b', s, re.IGNORECASE)`. -/
def findallWgwGo (w1 w2 s : PyStr) : Nat → Nat → Nat
  | 0, _ => 0
  | fuel + 1, i =>
    if i > s.length then 0
    else
      match wgwMatchEnd w1 w2 s i with
      | some e => 1 + findallWgwGo w1 w2 s fuel (max e (i + 1))
      | none => findallWgwGo w1 w2 s fuel (i + 1)

/-- Length of `re.findall(r'\bw1\b.*\bw2\b', s, re.IGNORECASE)`. -/
def findallCountWgw (w1 w2 s : PyStr) : Nat :=
  findallWgwGo w1 w2 s (s.length + 2) 0

/-- Result of `re.search(r'\bw1\s+w2\b', s, re.IGNORECASE)` as a Boolean:
some position carries `w1` after a boundary, then at least one whitespace
character, then `w2` followed by a boundary. -/
def containsWordGapWord (w1 w2 s : PyStr) : Bool :=
  (List.range (s.length + 1)).any fun i =>
    boundaryAt s i && prefixCIAt w1 s i &&
      (let g := i + w1.length
       let k := ((s.drop g).takeWhile pyIsSpace).length
       (List.range k).any fun m =>
         prefixCIAt w2 s (g + m + 1) && boundaryAt s (g + m + 1 + w2.length))

/-- Floor of a rational as an explicit integer division (kept separate
from the `Int.floor` notation so that it evaluates by kernel reduction). -/
def ratFloor (x : ℚ) : ℤ := x.num / (x.den : ℤ)

/-- Python 3 `round(x)`: round half to even, to an integer. -/
def roundHalfEven (x : ℚ) : ℤ :=
  let f := ratFloor x
  let r := x - f
  if r < 1 / 2 then f
  else if 1 / 2 < r then f + 1
  else if f % 2 = 0 then f else f + 1

/-- Python 3 `round(x, 1)`: round to one decimal digit, half to even. -/
def pyRound1 (x : ℚ) : ℚ := (roundHalfEven (x * 10) : ℚ) / 10

namespace ExcelMacroAnalyzer

/-!
Embedding of `ExcelMacroAnalyzer._calculate_complexity` from
src/excel-macro-analyzer.py (lines 203-260).
-/

/-- Total number of matches of the nine decision-point regexes of
`_calculate_complexity` over a VBA procedure body, in source order:
`\bIf\b.*\bThen\b`, `\bElseIf\b`, `\bCase\b`, `\bFor\b`,
`\bDo\b.*\bWhile\b`, `\bWhile\b`, `\bSelect\b`, `\bAnd\b`, `\bOr\b`,
each counted with `re.findall(..., re.IGNORECASE)`. -/
def decisionPointCount (code : PyStr) : Nat :=
  findallCountWgw (lc "If") (lc "Then") code
    + findallCountWord (lc "ElseIf") code
    + findallCountWord (lc "Case") code
    + findallCountWord (lc "For") code
    + findallCountWgw (lc "Do") (lc "While") code
    + findallCountWord (lc "While") code
    + findallCountWord (lc "Select") code
    + findallCountWord (lc "And") code
    + findallCountWord (lc "Or") code

/-- One step of the nesting scan: a stripped line first increments the
running level when it contains one of the opening keywords, then
decrements it (clamped at zero) when it contains one of the closing
phrases, and the running maximum is updated afterwards. -/
def nestingStep (acc : Nat × Nat) (line : PyStr) : Nat × Nat :=
  let l := pyStrip line
  let lvl :=
    if [lc "If", lc "For", lc "Do", lc "While", lc "Select"].any
        (fun w => containsWord w l) then acc.1 + 1 else acc.1
  let lvl :=
    if [lc "End If", lc "Next", lc "Loop", lc "Wend", lc "End Select"].any
        (fun w => containsWord w l) then lvl - 1 else lvl
  (lvl, max acc.2 lvl)

/-- Maximum nesting level reached while scanning the lines of the macro,
as computed by the `for line in code.split('\n')` loop of
`_calculate_complexity`. -/
def maxNesting (code : PyStr) : Nat :=
  ((code.splitOn '\n').foldl nestingStep (0, 0)).2

/-- Embedding of `ExcelMacroAnalyzer._calculate_complexity`: base 1, one
point per decision-point regex match, half a point per nesting level,
one point when `\bOn\s+Error\b` occurs, two when `\bDeclare\b` occurs,
rounded with `round(complexity, 1)`. -/
def calculate_complexity (code : PyStr) : ℚ :=
  let complexity : ℚ := 1
  let complexity := complexity + (decisionPointCount code : ℚ)
  let complexity := complexity + (maxNesting code : ℚ) * (1 / 2)
  let complexity :=
    if containsWordGapWord (lc "On") (lc "Error") code then complexity + 1
    else complexity
  let complexity :=
    if containsWord (lc "Declare") code then complexity + 2 else complexity
  pyRound1 complexity

end ExcelMacroAnalyzer

namespace ECA

/-!
Embedding of the `ExcelConnectionAnalyzer` class of
src/excel-connection-analyzer.py.  XML parsing, zip access and the
regex-engine captures are third-party library calls; the record-building
functions below are parameterised by the values those calls return, and
everything after that point is embedded from the source.
-/

/-- The module-level `SQL_KEYWORDS` table (lines 65-72). -/
def SQL_KEYWORDS : List PyStr :=
  [lc "SELECT", lc "FROM", lc "WHERE", lc "JOIN", lc "LEFT JOIN",
   lc "RIGHT JOIN", lc "INNER JOIN", lc "FULL JOIN", lc "CROSS JOIN",
   lc "GROUP BY", lc "HAVING", lc "ORDER BY", lc "DISTINCT", lc "UNION",
   lc "INTERSECT", lc "EXCEPT", lc "WITH", lc "CTE", lc "CASE", lc "WHEN",
   lc "THEN", lc "ELSE", lc "END", lc "OVER", lc "PARTITION BY",
   lc "ROW_NUMBER", lc "RANK", lc "DENSE_RANK", lc "NTILE", lc "LEAD",
   lc "LAG", lc "FIRST_VALUE", lc "LAST_VALUE", lc "SUBQUERY", lc "EXISTS",
   lc "NOT EXISTS", lc "IN", lc "NOT IN", lc "ALL", lc "ANY", lc "SOME",
   lc "MERGE", lc "PIVOT", lc "UNPIVOT"]

/-- Shape of the regex literals appearing in `CONNECTION_PATTERNS`: each
pattern is either a literal (dots escaped in the source) or, for
`Power\s*Query`, two literals separated by arbitrary whitespace. -/
inductive RegexPat
  | lit (w : PyStr)
  | seqWsStar (w1 w2 : PyStr)

/-- Result of `re.search(pattern, s, re.IGNORECASE)` as a Boolean for the
two pattern shapes of `CONNECTION_PATTERNS`. -/
def reSearchCI (p : RegexPat) (s : PyStr) : Bool :=
  match p with
  | .lit w => pyIn (pyLower w) (pyLower s)
  | .seqWsStar w1 w2 =>
    (List.range (s.length + 1)).any fun i =>
      prefixCIAt w1 s i &&
        (let g := i + w1.length
         let k := ((s.drop g).takeWhile pyIsSpace).length
         (List.range (k + 1)).any fun m => prefixCIAt w2 s (g + m))

/-- The module-level `CONNECTION_PATTERNS` table (lines 46-62), in its
Python dict insertion order. -/
def CONNECTION_PATTERNS : List (PyStr × List RegexPat) :=
  [(lc "ODBC", [.lit (lc "ODBC"), .lit (lc "DSN=")]),
   (lc "OLEDB", [.lit (lc "Provider="), .lit (lc "OLEDB"),
                 .lit (lc "Microsoft.ACE.OLEDB"), .lit (lc "Microsoft.Jet.OLEDB")]),
   (lc "Power Query", [.seqWsStar (lc "Power") (lc "Query"), .lit (lc "M Formula")]),
   (lc "CSV", [.lit (lc ".csv"), .lit (lc "text/csv"), .lit (lc "TextCSV")]),
   (lc "Web", [.lit (lc "http://"), .lit (lc "https://"), .lit (lc "www.")]),
   (lc "SharePoint", [.lit (lc "sharepoint"), .lit (lc "SharePoint")]),
   (lc "REST", [.lit (lc "REST"), .lit (lc "API"), .lit (lc "JSON")]),
   (lc "Oracle", [.lit (lc "Oracle"), .lit (lc "OraOLEDB")]),
   (lc "SQL Server", [.lit (lc "SQL Server"), .lit (lc "SQLServer"),
                      .lit (lc "SQLOLEDB"), .lit (lc "MSOLEDBSQL")]),
   (lc "MySQL", [.lit (lc "MySQL")]),
   (lc "PostgreSQL", [.lit (lc "PostgreSQL"), .lit (lc "PgOLEDB")]),
   (lc "Access", [.lit (lc "Access"), .lit (lc ".mdb"), .lit (lc ".accdb")]),
   (lc "Text", [.lit (lc ".txt"), .lit (lc "text/plain")]),
   (lc "Excel", [.lit (lc ".xls"), .lit (lc ".xlsx"), .lit (lc "Excel Files")])]

/-- The `for conn_type, patterns in CONNECTION_PATTERNS.items()` loop of
`_determine_connection_type`, returning the first type one of whose
patterns matches. -/
def findTypeLoop : List (PyStr × List RegexPat) → PyStr → Option PyStr
  | [], _ => none
  | (t, ps) :: rest, s =>
    if ps.any (fun p => reSearchCI p s) then some t else findTypeLoop rest s

/-- Embedding of `ExcelConnectionAnalyzer._determine_connection_type`
(lines 657-667). -/
def determine_connection_type (connection_string : PyStr) : PyStr :=
  if connection_string = [] then lc "Unknown"
  else
    match findTypeLoop CONNECTION_PATTERNS connection_string with
    | some t => t
    | none => lc "Unknown"

/-- Greedy capture `([^;]+)`: the maximal run of non-semicolon characters. -/
def captureNoSemi (s : PyStr) : PyStr := s.takeWhile (fun c => c ≠ ';')

/-- Result of `re.search(r'(?:k1|k2|...)=([^;]+)', s, re.IGNORECASE)`,
returning the captured group: the scan takes the leftmost position, keys
tried in alternation order, and the capture is the maximal non-empty
semicolon-free run after the `=`. -/
def searchKeyVal (keys : List PyStr) (s : PyStr) : Option PyStr :=
  (List.range (s.length + 1)).findSome? fun i =>
    keys.findSome? fun k =>
      if prefixCIAt (k ++ [Char.ofNat 61]) s i then
        let cap := captureNoSemi (s.drop (i + k.length + 1))
        if cap ≠ [] then some cap else none
      else none

/-- Result of `re.search(r'(?:k1|...)=([^;]+\.(?:e1|...))', s,
re.IGNORECASE)`: after the key and `=`, the group takes a non-empty
semicolon-free run, then a literal dot and one of the extensions; the
backtracking engine prefers the longest run whose following characters
are a dot and an extension. -/
def searchFileVal (keys exts : List PyStr) (s : PyStr) : Option PyStr :=
  (List.range (s.length + 1)).findSome? fun i =>
    keys.findSome? fun k =>
      if prefixCIAt (k ++ [Char.ofNat 61]) s i then
        let rest := s.drop (i + k.length + 1)
        let m := (captureNoSemi rest).length
        (List.range m).reverse.findSome? fun nSub =>
          let n := nSub + 1
          if rest[n]? = some '.' then
            exts.findSome? fun ext =>
              if prefixCIAt ext rest (n + 1) then
                some (rest.take (n + 1 + ext.length))
              else none
          else none
      else none

/-- Embedding of `ExcelConnectionAnalyzer._extract_data_sources`
(lines 668-687): three capture searches appended in order. -/
def extract_data_sources (connection_string : PyStr) : List PyStr :=
  let sources : List PyStr := []
  let sources := sources ++
    (match searchKeyVal [lc "Initial Catalog", lc "Database", lc "DBQ"]
        connection_string with
     | some v => [v]
     | none => [])
  let sources := sources ++
    (match searchKeyVal [lc "Data Source", lc "Server", lc "DSN"]
        connection_string with
     | some v => [v]
     | none => [])
  sources ++
    (match searchFileVal [lc "DBQ", lc "Source", lc "File"]
        [lc "csv", lc "txt", lc "xls", lc "xlsx", lc "mdb", lc "accdb"]
        connection_string with
     | some v => [v]
     | none => [])

/-- Embedding of `_looks_like_connection_string` (lines 636-643); the
keyword test is case-sensitive in the source. -/
def looks_like_connection_string (text : PyStr) : Bool :=
  if text.length < 10 then false
  else
    [lc "Provider=", lc "Data Source=", lc "Server=", lc "DSN=",
     lc "Driver=", lc "Database=", lc "Initial Catalog="].any
      fun k => pyIn k text

/-- Embedding of `_looks_like_sql_query` (lines 645-654). -/
def looks_like_sql_query (text : PyStr) : Bool :=
  if text.length < 10 then false
  else
    let text_upper := pyStrip (pyUpper text)
    [lc "SELECT", lc "INSERT", lc "UPDATE", lc "DELETE", lc "CREATE",
     lc "ALTER", lc "DROP", lc "EXEC", lc "WITH"].any
      fun k => k.isPrefixOf text_upper

/-- The connection record dict built by every extraction path of
`ExcelConnectionAnalyzer`; each creation site populates all eight keys. -/
structure Conn where
  Name : PyStr
  Type' : PyStr
  ConnectionString : PyStr
  TargetDataSources : List PyStr
  QueryText : PyStr
  WorksheetName : PyStr
  ComplexityScore : ℚ
  PurposeDescription : PyStr
deriving DecidableEq

/-- The subquery test of `_calculate_complexity`:
`'(' in query_text and 'SELECT' in query_text[query_text.find('('):]`. -/
def subqueryCheck (query_text : PyStr) : Bool :=
  pyIn ['('] query_text &&
    pyIn (lc "SELECT") (query_text.drop (query_text.findIdx (fun c => c = '(')))

/-- The point tally accumulated by `_calculate_complexity` (lines
690-744) before the logarithmic rescaling. -/
def complexityTally (c : Conn) : ℚ :=
  let score : ℚ := 0
  let score :=
    if c.ConnectionString ≠ [] then
      score + min ((c.ConnectionString.length : ℚ) / 50) 5
        + (if pyIn (lc "Trusted_Connection") c.ConnectionString then 1 else 0)
        + (if pyIn (lc "Integrated Security") c.ConnectionString then 1 else 0)
        + (if pyIn (lc "User ID") c.ConnectionString
              || pyIn (lc "UID") c.ConnectionString then 2 else 0)
        + (if pyIn (lc "Password") c.ConnectionString
              || pyIn (lc "PWD") c.ConnectionString then 2 else 0)
    else score
  let score :=
    if c.QueryText ≠ [] then
      let query_text := pyUpper c.QueryText
      score + (SQL_KEYWORDS.countP (fun k => pyIn k query_text) : ℚ)
        + (pyCount (lc "JOIN") query_text : ℚ) * 2
        + (if subqueryCheck query_text then 5 else 0)
        + (if pyIn (lc "OVER (") query_text then 3 else 0)
        + (if pyIn (lc "CASE") query_text then 3 else 0)
        + (if pyIn (lc "GROUP BY") query_text then 2 else 0)
        + (if pyIn (lc "WITH ") query_text
              && pyIn (lc " AS (") query_text then 4 else 0)
    else score
  score + (c.TargetDataSources.length : ℚ)

/-- Embedding of `ExcelConnectionAnalyzer._calculate_complexity` (lines
690-749).  When the tally is positive the source evaluates
`math.log(score + 1, 2)`, but the module never imports `math`, so that
branch raises `NameError` instead of producing a value. -/
def calculate_complexity (c : Conn) : Except PyStr Conn :=
  let score := complexityTally c
  if 0 < score then .error (lc "NameError: name math is not defined")
  else .ok { c with ComplexityScore := 0 }

/-- The `purpose` list accumulated by
`ExcelConnectionAnalyzer._infer_purpose` (lines 751-808) before the final
join. -/
def purposeList (c : Conn) : List PyStr :=
  let purpose : List PyStr := []
  let purpose :=
    if c.Type' ≠ lc "Unknown" then purpose ++ [c.Type' ++ lc " connection"]
    else purpose
  let purpose :=
    if c.TargetDataSources ≠ [] then
      purpose ++ [lc "accessing " ++ (lc ", ").intercalate c.TargetDataSources]
    else purpose
  let purpose :=
    if c.QueryText ≠ [] then
      let query_text := pyUpper c.QueryText
      if (lc "SELECT").isPrefixOf query_text then
        let purpose := purpose ++ [lc "data retrieval"]
        let purpose :=
          if [lc "COUNT", lc "SUM", lc "AVG", lc "MIN", lc "MAX"].any
              (fun f => pyIn f query_text) then
            purpose ++ [lc "data aggregation"]
          else purpose
        let purpose :=
          if pyIn (lc "WHERE") query_text then purpose ++ [lc "filtered data"]
          else purpose
        if pyIn (lc "GROUP BY") query_text then purpose ++ [lc "grouped data"]
        else purpose
      else if (lc "UPDATE").isPrefixOf query_text then
        purpose ++ [lc "data update"]
      else if (lc "INSERT").isPrefixOf query_text then
        purpose ++ [lc "data insertion"]
      else if (lc "DELETE").isPrefixOf query_text then
        purpose ++ [lc "data deletion"]
      else purpose
    else purpose
  let purpose :=
    if (7 : ℚ) ≤ c.ComplexityScore then purpose ++ [lc "complex analysis"]
    else if (4 : ℚ) ≤ c.ComplexityScore then purpose ++ [lc "moderate analysis"]
    else purpose
  if c.WorksheetName ≠ [] then
    purpose ++
      [lc "used in worksheet " ++ [Char.ofNat 39] ++ c.WorksheetName
        ++ [Char.ofNat 39]]
  else purpose

/-- Embedding of `ExcelConnectionAnalyzer._infer_purpose` (lines 751-808):
accumulate the purpose fragments, then join them (`'A ' + ' for '.join`)
or fall back to `'Unknown purpose'`. -/
def infer_purpose (c : Conn) : Conn :=
  { c with
    PurposeDescription :=
      if purposeList c ≠ [] then lc "A " ++ (lc " for ").intercalate (purposeList c)
      else lc "Unknown purpose" }

/-- The post-processing applied to each discovered record inside
`analyze`: `_calculate_complexity(conn)` followed by `_infer_purpose(conn)`. -/
def postProcessConn (c : Conn) : Except PyStr Conn :=
  match calculate_complexity c with
  | .error e => .error e
  | .ok c' => .ok (infer_purpose c')

/-- The `for conn in self.connections` post-processing loop of `analyze`,
propagating the first exception. -/
def postProcessAll : List Conn → Except PyStr (List Conn)
  | [] => .ok []
  | c :: rest =>
    match postProcessConn c with
    | .error e => .error e
    | .ok c' =>
      match postProcessAll rest with
      | .error e => .error e
      | .ok cs => .ok (c' :: cs)

/-- Embedding of `ExcelConnectionAnalyzer.analyze` (lines 83-99).  The
argument stands for the outcome of `_analyze_xlsx`/`_analyze_xls`
(the list of discovered raw records, or the exception they raise); the
`except` clause of `analyze` logs the error and re-raises it, so errors
pass through unchanged. -/
def analyze (inner : Except PyStr (List Conn)) : Except PyStr (List Conn) :=
  match inner with
  | .error e => .error e
  | .ok conns =>
    match postProcessAll conns with
    | .error e => .error e
    | .ok cs => .ok cs

/-- Python `str(n)` for the record-numbering suffixes. -/
def natStr (n : Nat) : PyStr := (Nat.repr n).toList

/-- The record dict literal shared by all creation sites of
`ExcelConnectionAnalyzer`: every key present, `Type` defaulted to
`'Unknown'`. -/
def blankConn : Conn :=
  { Name := lc "Unnamed Connection", Type' := lc "Unknown",
    ConnectionString := [], TargetDataSources := [], QueryText := [],
    WorksheetName := [], ComplexityScore := 0, PurposeDescription := [] }

/-- Record built per `<connection>` element by `_process_connections_xml`
(lines 233-270).  `name` is the element's `name` attribute, `dbPrConn`
the `connection` attribute of the `dbPr` child when that child exists
(`get` defaults it to the empty string), `commandText` the text of the
`commandText` child when present, `tableNames` the `name` attributes of
the `<table>` children in document order. -/
def mkConnectionsXmlConn (name : Option PyStr) (dbPrConn : Option PyStr)
    (commandText : Option PyStr) (tableNames : List PyStr) : Conn :=
  let c : Conn := { blankConn with Name := name.getD (lc "Unnamed Connection") }
  let c : Conn :=
    match dbPrConn with
    | some v =>
      { c with ConnectionString := v, Type' := determine_connection_type v }
    | none => c
  let c : Conn :=
    match commandText with
    | some t => if t ≠ [] then { c with QueryText := t } else c
    | none => c
  let c : Conn := tableNames.foldl
    (fun c tn => if tn ≠ [] then { c with WorksheetName := tn } else c) c
  if c.ConnectionString ≠ [] then
    let data_sources := extract_data_sources c.ConnectionString
    if data_sources ≠ [] then { c with TargetDataSources := data_sources }
    else c
  else c

/-- The record assembled by `_process_query_xml` (lines 283-313) before
the final `if connection['ConnectionString'] or connection['QueryText']`
append guard. -/
def queryXmlBase (queryName : Option PyStr) (connStr : Option PyStr)
    (commandText : Option PyStr) : Conn :=
  let c : Conn := { blankConn with Name := lc "Query Connection" }
  let c : Conn :=
    match queryName with
    | some n => if n ≠ [] then { c with Name := n } else c
    | none => c
  let c : Conn :=
    match connStr with
    | some v =>
      if v ≠ [] then
        let c := { c with ConnectionString := v,
                          Type' := determine_connection_type v }
        let data_sources := extract_data_sources v
        if data_sources ≠ [] then { c with TargetDataSources := data_sources }
        else c
      else c
    | none => c
  match commandText with
  | some t => if t ≠ [] then { c with QueryText := t } else c
  | none => c

/-- Record built by `_process_query_xml` (lines 283-316); appended to the
connection list only when a connection string or query text was found. -/
def mkQueryXmlConn (queryName : Option PyStr) (connStr : Option PyStr)
    (commandText : Option PyStr) : Option Conn :=
  let c := queryXmlBase queryName connStr commandText
  if c.ConnectionString ≠ [] || c.QueryText ≠ [] then some c else none

/-- Record built per matching attribute by `_process_custom_xml` (lines
327-343): created only when the attribute name mentions a data keyword
and the value looks like a connection string. -/
def mkCustomXmlConn (idx : Nat) (attrName attrValue : PyStr) : Option Conn :=
  if ([lc "connect", lc "source", lc "query", lc "db", lc "data"].any
        fun kw => pyIn kw (pyLower attrName))
      && looks_like_connection_string attrValue then
    some { blankConn with
      Name := lc "Custom XML Connection " ++ natStr idx,
      Type' := determine_connection_type attrValue,
      ConnectionString := attrValue,
      TargetDataSources := extract_data_sources attrValue }
  else none

/-- Record built per SQL-looking text node by `_process_custom_xml`
(lines 346-357). -/
def mkCustomXmlQuery (idx : Nat) (text : PyStr) : Option Conn :=
  if text ≠ [] && looks_like_sql_query text then
    some { blankConn with
      Name := lc "Custom XML Query " ++ natStr idx,
      Type' := lc "SQL",
      QueryText := text }
  else none

/-- The `if not TargetDataSources` refinement chain of
`_process_power_query_file` (lines 432-445); the membership tests on the
M formula are case-sensitive in the source. -/
def powerQueryRefine (m_formula : PyStr) (c : Conn) : Conn :=
  if c.TargetDataSources = [] then
    if pyIn (lc "Csv.Document") m_formula then
      { c with Type' := lc "CSV", TargetDataSources := [lc "CSV File"] }
    else if pyIn (lc "Excel.Workbook") m_formula then
      { c with Type' := lc "Excel", TargetDataSources := [lc "Excel File"] }
    else if pyIn (lc "Sql.Database") m_formula then
      { c with Type' := lc "SQL Server", TargetDataSources := [lc "SQL Database"] }
    else if pyIn (lc "Web.Contents") m_formula then
      { c with Type' := lc "Web", TargetDataSources := [lc "Web Source"] }
    else c
  else c

/-- Record built by `_process_power_query_file` (lines 383-446).
`nameSuffix` is the digit group of the query file name or the running
index, `m_formula` the extracted M formula (the function returns early
when it is empty), `regexSources` the non-overlapping data-source
captures of the three `data_source_patterns` in match order. -/
def mkPowerQueryConn (nameSuffix : PyStr) (m_formula : PyStr)
    (regexSources : List PyStr) : Option Conn :=
  if m_formula = [] then none
  else
    let c := { blankConn with
      Name := lc "Power Query " ++ nameSuffix,
      Type' := lc "Power Query",
      QueryText := m_formula }
    let c := { c with
      TargetDataSources := regexSources.foldl
        (fun acc v => if v ≠ [] && !acc.contains v then acc ++ [v] else acc)
        c.TargetDataSources }
    some (powerQueryRefine m_formula c)

/-- The record assembled per `<queryTable>` by
`_extract_connections_from_sheet` (lines 452-487) before the final
append guard. -/
def sheetConnBase (idx : Nat) (sheet_name : PyStr)
    (queryPrConnStr : Option PyStr) : Conn :=
  let c : Conn := { blankConn with
    Name := lc "Sheet Connection " ++ natStr idx,
    WorksheetName := sheet_name }
  match queryPrConnStr with
  | some v =>
    if v ≠ [] then
      let c := { c with ConnectionString := v,
                        Type' := determine_connection_type v }
      let data_sources := extract_data_sources v
      if data_sources ≠ [] then { c with TargetDataSources := data_sources }
      else c
    else c
  | none => c

/-- Record built per `<queryTable>` by `_extract_connections_from_sheet`
(lines 452-490); kept only when the `queryPr` child carries a non-empty
`connectionString` attribute. -/
def mkSheetConn (idx : Nat) (sheet_name : PyStr)
    (queryPrConnStr : Option PyStr) : Option Conn :=
  let c := sheetConnBase idx sheet_name queryPrConnStr
  if c.ConnectionString ≠ [] then some c else none

/-- The `(pattern, conn_type)` table of `_find_connection_strings_in_text`
(lines 522-537): connection type and number of capture groups of each
pattern. -/
def textPatternTable : List (PyStr × Nat) :=
  [(lc "ODBC", 2), (lc "OLEDB", 2), (lc "SQL Server", 2), (lc "Database", 2),
   (lc "Database with Authentication", 2), (lc "CSV", 1), (lc "Access", 1)]

/-- Record built per regex match by `_find_connection_strings_in_text`
(lines 539-590).  `patIdx` selects the row of the pattern table,
`conn_string` is the context-derived connection string (the
`conn_start`/`conn_end` slice of the surrounding text), `g1`/`g2` the
capture groups of the match (`g2` is `None` for the one-group patterns). -/
def mkTextConn (source : PyStr) (idx : Nat) (patIdx : Fin textPatternTable.length)
    (conn_string : PyStr) (g1 g2 : Option PyStr) : Conn :=
  let row := textPatternTable.get patIdx
  let target_sources : List PyStr := []
  let target_sources :=
    if row.2 ≥ 2 then
      match g2 with
      | some v =>
        if v ≠ [] && !target_sources.contains v then target_sources ++ [v]
        else target_sources
      | none => target_sources
    else target_sources
  let target_sources :=
    if row.2 ≥ 1 then
      match g1 with
      | some v =>
        if v ≠ [] && !target_sources.contains v then target_sources ++ [v]
        else target_sources
      | none => target_sources
    else target_sources
  { blankConn with
    Name := source ++ lc " Connection " ++ natStr idx,
    Type' := row.1,
    ConnectionString := conn_string,
    TargetDataSources := target_sources }

/-- Python `re.sub(r'\s+', ' ', s)`: collapse whitespace runs. -/
def collapseWs : PyStr → PyStr
  | [] => []
  | c :: t =>
    if pyIsSpace c then ' ' :: collapseWs (t.dropWhile pyIsSpace)
    else c :: collapseWs t
termination_by s => s.length
decreasing_by
  all_goals simp
  all_goals exact Nat.lt_succ_of_le ((List.dropWhile_sublist _).length_le)

/-- Record built per SQL-query match by `_find_sql_queries_in_text`
(lines 592-634).  `rawMatch` is the whole regex match, `tables` the
`FROM`/`JOIN` table captures after Python's `set` conversion. -/
def mkSqlQueryConn (source : PyStr) (idx : Nat) (rawMatch : PyStr)
    (tables : List PyStr) : Conn :=
  let query_text := collapseWs ((pyStrip rawMatch).take 1000)
  { blankConn with
    Name := source ++ lc " SQL Query " ++ natStr idx,
    Type' := lc "SQL",
    QueryText := query_text,
    TargetDataSources := tables }

/-- Concrete record exercising the missing `math` import: any record
whose connection string is non-empty accrues a positive tally. -/
def demoConn : Conn :=
  { blankConn with
    Name := lc "Demo", Type' := lc "ODBC",
    ConnectionString := lc "DSN=Sales" }

end ECA

namespace XAF

/-!
Embedding of the `ConnectionAnalyzer` class of src/excel-analyzer-file.py.
The openpyxl/zip/COM extraction passes and the pandas CSV reader are
third-party library calls; the functions below are parameterised by what
those calls deliver (the raw record list, the CSV column names or the
exception message) and embed the repository's own logic.
-/

/-- Truthiness of an optional Python string (`None` and `''` are falsy). -/
def pyTruthy : Option PyStr → Bool
  | none => false
  | some s => s ≠ []

/-- Embedding of `ConnectionAnalyzer._calculate_complexity_score`
(lines 1099-1149): base 3, capped bonuses, capped at 10. -/
def calculate_complexity_score (conn_type : PyStr)
    (conn_string query_text : Option PyStr) : Nat :=
  let score := 3
  let score := score +
    (if pyIn (lc "sql") (pyLower conn_type) then 2
     else if pyIn (lc "oledb") (pyLower conn_type) then 1
     else if pyIn (lc "web") (pyLower conn_type) then 2
     else if pyIn (lc "csv") (pyLower conn_type) then 0
     else 0)
  let score :=
    if pyTruthy query_text then
      let qt := pyLower (query_text.getD [])
      let score := score + min (pyCount (lc " join ") qt) 3
      let score := score +
        (if pyIn (lc "select") qt && pyIn (lc "from") qt
            && pyCount (lc "select ") qt > 1 then 1 else 0)
      let score := score +
        (if pyIn (lc "with ") qt && pyIn (lc " as (") qt then 1 else 0)
      score + (if pyIn (lc "over (") qt then 1 else 0)
    else score
  let score :=
    if pyTruthy conn_string then
      score + min (pyCount [';'] (conn_string.getD []) / 3) 2
    else score
  min score 10

/-- The `operations` table of `_calculate_powerquery_complexity`. -/
def powerquery_operations : List PyStr :=
  [lc "Table.Join", lc "Table.NestedJoin", lc "Table.Combine",
   lc "Table.Pivot", lc "Table.UnPivot", lc "Table.Group",
   lc "Table.TransformColumns", lc "Table.FillDown", lc "Table.FillUp",
   lc "Table.Transpose"]

/-- The `for op in operations` loop of `_calculate_powerquery_complexity`:
one point per present operation, breaking once the score reaches 10. -/
def opsLoop : List PyStr → PyStr → Nat → Nat
  | [], _, score => score
  | op :: rest, formula, score =>
    if pyIn op formula then
      if 10 ≤ score + 1 then score + 1 else opsLoop rest formula (score + 1)
    else opsLoop rest formula score

/-- Embedding of `ConnectionAnalyzer._calculate_powerquery_complexity`
(lines 1151-1188). -/
def calculate_powerquery_complexity (formula : PyStr) : Nat :=
  if formula = [] then 3
  else
    let score := 3 + min (pyCount (lc "    ") formula / 3) 3
    let score := opsLoop powerquery_operations formula score
    let score := score +
      (if pyIn (lc "let func =") formula || pyIn (lc "as function") formula
       then 2 else 0)
    min score 10

/-- The connection record dict of `ConnectionAnalyzer` (keys `Name`,
`Type`, `Connection String`, `Target Datasources`, `Query Text`,
`Worksheet Name`, `Tables`, `Complexity Score`, `Purpose Description`). -/
structure FAConn where
  Name : PyStr
  Type' : PyStr
  ConnectionString : PyStr
  TargetDatasources : List PyStr
  QueryText : PyStr
  WorksheetName : PyStr
  Tables : List PyStr
  ComplexityScore : Nat
  PurposeDescription : PyStr
deriving DecidableEq

/-- The duplicate-removal loop at the end of `_analyze_excel_file`
(lines 458-464): keep a record when its `Name` has not been seen yet. -/
def dedupLoop : List FAConn → List PyStr → List FAConn
  | [], _ => []
  | c :: rest, seen =>
    if c.Name ∈ seen then dedupLoop rest seen
    else c :: dedupLoop rest (c.Name :: seen)

/-- Embedding of `ConnectionAnalyzer._analyze_excel_file` (lines 423-464):
the extraction passes produce `raw` (any exception they raise is caught
and logged inside the method), then duplicates are removed by name. -/
def analyze_excel_file (raw : List FAConn) : List FAConn := dedupLoop raw []

/-- `pathlib.PurePath.name`: the final path component. -/
def pathName (p : PyStr) : PyStr :=
  ((p.splitOn '/').filter (fun c => c ≠ [])).getLastD p

/-- `pathlib.PurePath.suffix` of a file name: the part from the last dot
when that dot is neither leading nor trailing, otherwise empty. -/
def pathSuffix (name : PyStr) : PyStr :=
  match name.reverse.findIdx? (fun c => c = '.') with
  | none => []
  | some ri =>
    let i := name.length - 1 - ri
    if 0 < i then
      if i < name.length - 1 then name.drop i else []
    else []

/-- The `purpose_indicators` table of `_infer_csv_purpose`, in dict
insertion order. -/
def purpose_indicators : List (PyStr × List PyStr) :=
  [(lc "sales", [lc "sale", lc "order", lc "invoice", lc "revenue",
                 lc "transaction"]),
   (lc "customer", [lc "customer", lc "client", lc "account", lc "contact",
                    lc "lead"]),
   (lc "product", [lc "product", lc "item", lc "sku", lc "inventory",
                   lc "stock"]),
   (lc "employee", [lc "employee", lc "staff", lc "personnel", lc "hr",
                    lc "payroll"]),
   (lc "finance", [lc "finance", lc "account", lc "budget", lc "cost",
                   lc "expense", lc "profit"]),
   (lc "time_series", [lc "date", lc "time", lc "period", lc "month",
                       lc "year", lc "quarter"]),
   (lc "geographic", [lc "country", lc "state", lc "city", lc "zip",
                      lc "postal", lc "region"])]

/-- The `purpose_descriptions` table of `_infer_csv_purpose`. -/
def purpose_descriptions : List (PyStr × PyStr) :=
  [(lc "sales", lc "Sales or order data"),
   (lc "customer", lc "Customer or client data"),
   (lc "product", lc "Product or inventory data"),
   (lc "employee", lc "Employee or HR data"),
   (lc "finance", lc "Financial data"),
   (lc "time_series", lc "Time series data"),
   (lc "geographic", lc "Geographic or regional data")]

/-- Dict lookup with default over an association list. -/
def lookupD (l : List (PyStr × PyStr)) (k : PyStr) : PyStr :=
  match l.find? (fun e => e.1 == k) with
  | some e => e.2
  | none => []

/-- Embedding of `ConnectionAnalyzer._infer_csv_purpose` (lines
1284-1346). -/
def infer_csv_purpose (column_names : List PyStr) : PyStr :=
  let columns_lower := column_names.map pyLower
  let purpose_counts := purpose_indicators.map fun pi_ =>
    (pi_.1, columns_lower.countP fun col => pi_.2.any fun ind => pyIn ind col)
  let max_count := (purpose_counts.map (fun e => e.2)).foldl max 0
  if max_count = 0 then lc "General data file"
  else
    let top_purposes :=
      (purpose_counts.filter (fun e => e.2 = max_count)).map (fun e => e.1)
    if top_purposes.length = 1 then
      lookupD purpose_descriptions (top_purposes.getD 0 [])
    else if top_purposes.contains (lc "time_series") then
      let other_purposes := top_purposes.filter (fun p => p ≠ lc "time_series")
      match other_purposes with
      | [] => lookupD purpose_descriptions (lc "time_series")
      | o :: _ => lc "Time series " ++ pyLower (lookupD purpose_descriptions o)
    else if top_purposes.length ≥ 2 then
      lookupD purpose_descriptions (top_purposes.getD 0 []) ++ lc " with "
        ++ pyLower (lookupD purpose_descriptions (top_purposes.getD 1 []))
    else lookupD purpose_descriptions (top_purposes.getD 0 [])

/-- Outcome of the CSV reading pipeline of `_analyze_csv_file` (open and
sample the file, sniff the dialect, `pd.read_csv`): either the exception
message or the data-frame column names. -/
inductive CsvReadResult
  | failure (msg : PyStr)
  | success (columns : List PyStr)
deriving DecidableEq

/-- Embedding of `ConnectionAnalyzer._analyze_csv_file` (lines 941-1008):
always returns a single record; any exception from the reading pipeline
is caught and turned into an error record with score 1. -/
def analyze_csv_file (path : PyStr) (r : CsvReadResult) : FAConn :=
  match r with
  | .failure e =>
    { Name := pathName path, Type' := lc "CSV File (Error)",
      ConnectionString := lc "File=" ++ path, TargetDatasources := [path],
      QueryText := lc "N/A", WorksheetName := lc "N/A", Tables := [lc "N/A"],
      ComplexityScore := 1,
      PurposeDescription := lc "Error analyzing file: " ++ e }
  | .success columns =>
    let column_count := columns.length
    let complexity := 2
    let complexity := complexity + (if column_count > 10 then 1 else 0)
    let complexity := complexity + (if column_count > 20 then 1 else 0)
    let date_columns := columns.countP fun col =>
      pyIn (lc "date") (pyLower col) || pyIn (lc "time") (pyLower col)
    let complexity := complexity + (if date_columns > 0 then 1 else 0)
    { Name := pathName path, Type' := lc "CSV File",
      ConnectionString := lc "File=" ++ path, TargetDatasources := [path],
      QueryText := lc "N/A", WorksheetName := lc "N/A", Tables := [lc "N/A"],
      ComplexityScore := complexity,
      PurposeDescription := infer_csv_purpose columns }

/-- Embedding of `ConnectionAnalyzer.analyze_file` (lines 396-421):
missing files raise `FileNotFoundError`, `.xlsx`/`.xlsm` files go through
the Excel path, `.csv` files produce a one-record list, anything else
raises `ValueError`. -/
def analyze_file (path : PyStr) (fileExists : Bool) (excelRaw : List FAConn)
    (csvRead : CsvReadResult) : Except PyStr (List FAConn) :=
  if !fileExists then .error (lc "FileNotFoundError")
  else
    let file_extension := pyLower (pathSuffix (pathName path))
    if file_extension ∈ [lc ".xlsx", lc ".xlsm"] then
      .ok (analyze_excel_file excelRaw)
    else if file_extension = lc ".csv" then
      .ok [analyze_csv_file path csvRead]
    else .error (lc "ValueError: Unsupported file format")

end XAF

namespace EUDA

/-!
Embedding of the duplicated `analyze_excel_euda` functions of
src/improved-euda-analyzer.py (lines 9-98), src/robust-euda-analyzer.py
(lines 9-98) and src/euda-analyzer-chatbot.py (lines 8-97).  The pandas
calls (`pd.ExcelFile`, `pd.read_excel`) are library calls; a workbook is
modelled by the outcome of opening it and, per sheet, the outcome of
reading it into a data frame.
-/

/-- A successfully read data frame: the row count and the columns, each
column tagged with whether its dtype is `object` (only those are scanned
for formulas) and carrying its cells as strings.  Pandas data frames are
rectangular, so every column has `nrows` cells. -/
structure SheetDF where
  nrows : Nat
  cols : List (Bool × List PyStr)
  rect : ∀ c ∈ cols, (Prod.snd c).length = nrows

/-- Per-sheet entry of `analysis['sheets_analysis']`. -/
inductive SheetReport
  | ok (name : PyStr) (rows cols formula_count : Nat)
  | err (name : PyStr) (msg : PyStr)
deriving DecidableEq

/-- The `analysis` result dict (the `named_ranges` list is initialised
empty and never filled by any of the three scripts). -/
structure AnalysisDict where
  file_name : PyStr
  sheet_count : Nat
  formulas_count : Nat
  named_ranges : List PyStr
  macros_detected : Bool
  data_tables : List (PyStr × Nat × Nat)
  sheets_analysis : List SheetReport
  complexity_score : ℤ
  risk_areas : List PyStr
deriving DecidableEq

/-- Result of `analyze_excel_euda`: the analysis dict, or the error dict
`{"error": str(e)}` returned when the outer `except` fires. -/
inductive EudaResult
  | analysis (a : AnalysisDict)
  | errorRecord (msg : PyStr)
deriving DecidableEq

/-- A workbook as seen through pandas: the file name and the outcome of
`pd.ExcelFile` (on success, the sheet names with the outcome of reading
each sheet). -/
structure EudaInput where
  file_name : PyStr
  openResult : Except PyStr (List (PyStr × Except PyStr SheetDF))

/-- Python regex `^\s*=` applied to a cell rendered as a string: optional
leading whitespace followed by an equals sign. -/
def cellIsFormula (s : PyStr) : Bool :=
  match s.dropWhile pyIsSpace with
  | c :: _ => c = '='
  | [] => false

/-- Formula count of one sheet: the `for col in df.columns` loop counts,
in each object-dtype column, the cells matching `^\s*=`. -/
def sheetFormulaCount (df : SheetDF) : Nat :=
  df.cols.foldl
    (fun acc c => acc + (if c.1 then c.2.countP cellIsFormula else 0)) 0

/-- Running state of the per-sheet loop of `analyze_excel_euda`. -/
structure EudaAcc where
  total_cells : Nat
  formula_cells : Nat
  formulas_count : Nat
  data_tables : List (PyStr × Nat × Nat)
  sheets_analysis : List SheetReport
  risk_areas : List PyStr

/-- Loop body for a successfully read sheet, shared verbatim by the three
scripts. -/
def processSheetOk (acc : EudaAcc) (name : PyStr) (df : SheetDF) : EudaAcc :=
  let rows := df.nrows
  let cols := df.cols.length
  let sheet_formulas := sheetFormulaCount df
  { total_cells := acc.total_cells + rows * cols
    formula_cells := acc.formula_cells + sheet_formulas
    formulas_count := acc.formulas_count + sheet_formulas
    data_tables := acc.data_tables ++
      (if rows > 5 ∧ cols > 3 then [(name, rows, cols)] else [])
    sheets_analysis := acc.sheets_analysis ++ [.ok name rows cols sheet_formulas]
    risk_areas := acc.risk_areas }

/-- The sheet loop of improved-euda-analyzer.py and
robust-euda-analyzer.py: a per-sheet `try` turns a failing sheet into an
error entry and a risk line. -/
def sheetsLoopGuarded : List (PyStr × Except PyStr SheetDF) → EudaAcc → EudaAcc
  | [], acc => acc
  | (name, .ok df) :: rest, acc => sheetsLoopGuarded rest (processSheetOk acc name df)
  | (name, .error e) :: rest, acc =>
    sheetsLoopGuarded rest
      { acc with
        sheets_analysis := acc.sheets_analysis ++ [.err name e]
        risk_areas := acc.risk_areas ++
          [lc "Error analyzing sheet " ++ name ++ lc ": " ++ e] }

/-- The sheet loop of euda-analyzer-chatbot.py: no per-sheet `try`, so
the first failing sheet aborts the loop and the exception reaches the
outer handler. -/
def sheetsLoopBare : List (PyStr × Except PyStr SheetDF) → EudaAcc →
    Except PyStr EudaAcc
  | [], acc => .ok acc
  | (name, .ok df) :: rest, acc => sheetsLoopBare rest (processSheetOk acc name df)
  | (_, .error e) :: _, _ => .error e

/-- The complexity-score formula shared verbatim by the three scripts:
`round(complexity_base + formula_complexity + formula_ratio * 50)` with
the guarded density ratio. -/
def complexityScore (sheet_count : Nat) (acc : EudaAcc) : ℤ :=
  let formula_ratio : ℚ :=
    if acc.total_cells > 0 then (acc.formula_cells : ℚ) / (acc.total_cells : ℚ)
    else 0
  let complexity_base : Nat := min 10 sheet_count + min 10 acc.data_tables.length
  let formula_complexity : ℚ := min 30 ((acc.formulas_count : ℚ) / 10)
  roundHalfEven ((complexity_base : ℚ) + formula_complexity + formula_ratio * 50)

/-- The three score-based risk lines appended after the score is
computed, shared verbatim by the three scripts. -/
def appendScoreRisks (score : ℤ) (formulas_count sheet_count : Nat)
    (risks : List PyStr) : List PyStr :=
  let risks := risks ++
    (if score > 70 then [lc "High complexity suggests difficult maintenance"]
     else [])
  let risks := risks ++
    (if formulas_count > 100 then
      [lc "Large number of formulas increases error risk"]
     else [])
  risks ++
    (if sheet_count > 10 then
      [lc "Large number of sheets may indicate poor organization"]
     else [])

/-- Macro detection shared by the three scripts: the lower-cased file
name ends with `.xlsm` or `.xls`. -/
def macrosDetected (file_name : PyStr) : Bool :=
  [lc ".xlsm", lc ".xls"].any fun suf => suf.isSuffixOf (pyLower file_name)

/-- Embedding of `analyze_excel_euda` from improved-euda-analyzer.py. -/
def analyze_excel_euda_improved (inp : EudaInput) : EudaResult :=
  match inp.openResult with
  | .error e => .errorRecord e
  | .ok sheets =>
    let sheet_count := sheets.length
    let macros := macrosDetected inp.file_name
    let acc0 : EudaAcc :=
      { total_cells := 0, formula_cells := 0, formulas_count := 0,
        data_tables := [], sheets_analysis := [],
        risk_areas :=
          if macros then
            [lc "Contains macros which should be reviewed for security"]
          else [] }
    let acc := sheetsLoopGuarded sheets acc0
    let score := complexityScore sheet_count acc
    .analysis
      { file_name := inp.file_name, sheet_count := sheet_count,
        formulas_count := acc.formulas_count, named_ranges := [],
        macros_detected := macros, data_tables := acc.data_tables,
        sheets_analysis := acc.sheets_analysis, complexity_score := score,
        risk_areas :=
          appendScoreRisks score acc.formulas_count sheet_count acc.risk_areas }

/-- Embedding of `analyze_excel_euda` from robust-euda-analyzer.py, whose
function body is identical to the one in improved-euda-analyzer.py. -/
def analyze_excel_euda_robust (inp : EudaInput) : EudaResult :=
  match inp.openResult with
  | .error e => .errorRecord e
  | .ok sheets =>
    let sheet_count := sheets.length
    let macros := macrosDetected inp.file_name
    let acc0 : EudaAcc :=
      { total_cells := 0, formula_cells := 0, formulas_count := 0,
        data_tables := [], sheets_analysis := [],
        risk_areas :=
          if macros then
            [lc "Contains macros which should be reviewed for security"]
          else [] }
    let acc := sheetsLoopGuarded sheets acc0
    let score := complexityScore sheet_count acc
    .analysis
      { file_name := inp.file_name, sheet_count := sheet_count,
        formulas_count := acc.formulas_count, named_ranges := [],
        macros_detected := macros, data_tables := acc.data_tables,
        sheets_analysis := acc.sheets_analysis, complexity_score := score,
        risk_areas :=
          appendScoreRisks score acc.formulas_count sheet_count acc.risk_areas }

/-- Embedding of `analyze_excel_euda` from euda-analyzer-chatbot.py: no
per-sheet `try` (a sheet failure reaches the outer handler, which returns
the error dict), and one extra macro risk line appended at the end. -/
def analyze_excel_euda_chatbot (inp : EudaInput) : EudaResult :=
  match inp.openResult with
  | .error e => .errorRecord e
  | .ok sheets =>
    let sheet_count := sheets.length
    let macros := macrosDetected inp.file_name
    let acc0 : EudaAcc :=
      { total_cells := 0, formula_cells := 0, formulas_count := 0,
        data_tables := [], sheets_analysis := [],
        risk_areas :=
          if macros then
            [lc "Contains macros which should be reviewed for security"]
          else [] }
    match sheetsLoopBare sheets acc0 with
    | .error e => .errorRecord e
    | .ok acc =>
      let score := complexityScore sheet_count acc
      .analysis
        { file_name := inp.file_name, sheet_count := sheet_count,
          formulas_count := acc.formulas_count, named_ranges := [],
          macros_detected := macros, data_tables := acc.data_tables,
          sheets_analysis := acc.sheets_analysis, complexity_score := score,
          risk_areas :=
            appendScoreRisks score acc.formulas_count sheet_count acc.risk_areas
              ++ (if macros then [lc "Macros should be security reviewed"]
                  else []) }

/-- Workbook with one successfully loading sheet, used to instantiate the
score-range theorem on a concrete input. -/
def demoWorkbook : EudaInput :=
  { file_name := lc "w.xlsx",
    openResult := .ok
      [(lc "S1", .ok { nrows := 1, cols := [(true, [lc "=A1"])],
                       rect := by decide })] }

/-- Macro-carrying workbook with no sheets, on which the improved and
chatbot variants return different risk lists. -/
def cxWorkbook : EudaInput :=
  { file_name := lc "report.xlsm", openResult := .ok [] }

/-- Macro-carrying workbook with one loading sheet, used to instantiate
the variant-agreement theorem on a concrete input. -/
def agreeWorkbook : EudaInput :=
  { file_name := lc "m.xls",
    openResult := .ok
      [(lc "Data", .ok { nrows := 2, cols := [(false, [lc "1", lc "2"])],
                         rect := by decide })] }

end EUDA

namespace XAF

/-- Demo records with a duplicated name, used to instantiate the
deduplication theorem on a concrete input. -/
def demoFA (n : String) : FAConn :=
  { Name := lc n, Type' := lc "ODBC", ConnectionString := [],
    TargetDatasources := [], QueryText := [], WorksheetName := [],
    Tables := [], ComplexityScore := 3, PurposeDescription := [] }

/-- A raw discovery list with a repeated connection name. -/
def demoRaw : List FAConn := [demoFA "A", demoFA "B", demoFA "A"]

end XAF

/-!
## Theorems

Helper lemmas first, then one theorem per claim (with witness theorems
for the theorems that carry hypotheses).
-/

theorem ratFloor_eq_floor (x : ℚ) : ratFloor x = ⌊x⌋ := Rat.floor_def.symm

theorem roundHalfEven_intCast (z : ℤ) : roundHalfEven (z : ℚ) = z := by
  simp only [roundHalfEven, ratFloor_eq_floor, Int.floor_intCast]
  norm_num

theorem roundHalfEven_nonneg {x : ℚ} (h : 0 ≤ x) : 0 ≤ roundHalfEven x := by
  have hf : (0 : ℤ) ≤ ⌊x⌋ := Int.floor_nonneg.mpr h
  simp only [roundHalfEven, ratFloor_eq_floor]
  split_ifs <;> omega

theorem roundHalfEven_le {x : ℚ} {B : ℤ} (h : x ≤ (B : ℚ)) :
    roundHalfEven x ≤ B := by
  have hf : ⌊x⌋ ≤ B := by
    calc ⌊x⌋ ≤ ⌊(B : ℚ)⌋ := Int.floor_le_floor h
    _ = B := Int.floor_intCast B
  simp only [roundHalfEven, ratFloor_eq_floor]
  split_ifs with h1 h2
  · exact hf
  · have hx : (⌊x⌋ : ℚ) + 1 / 2 ≤ x := by
      have := not_lt.mp h1
      linarith
    have : (⌊x⌋ : ℚ) + 1 / 2 ≤ (B : ℚ) := le_trans hx h
    have : (⌊x⌋ : ℚ) < (B : ℚ) := by linarith
    have : ⌊x⌋ < B := by exact_mod_cast this
    omega
  all_goals
    (have hx : (⌊x⌋ : ℚ) + 1 / 2 ≤ x := by
      have := not_lt.mp h1
      linarith
     have : (⌊x⌋ : ℚ) + 1 / 2 ≤ (B : ℚ) := le_trans hx h
     have : (⌊x⌋ : ℚ) < (B : ℚ) := by linarith
     have : ⌊x⌋ < B := by exact_mod_cast this
     omega)

theorem pyRound1_half_integer (n : ℤ) : pyRound1 ((n : ℚ) / 2) = (n : ℚ) / 2 := by
  have h : ((n : ℚ) / 2) * 10 = ((5 * n : ℤ) : ℚ) := by push_cast; ring
  rw [pyRound1, h, roundHalfEven_intCast]
  push_cast
  ring

theorem pyRound1_one_add (n m : ℕ) (k1 k2 : ℤ) :
    pyRound1 (1 + (n : ℚ) + (m : ℚ) * (1 / 2) + (k1 : ℚ) + (k2 : ℚ)) =
      1 + (n : ℚ) + (m : ℚ) * (1 / 2) + (k1 : ℚ) + (k2 : ℚ) := by
  have h : (1 + (n : ℚ) + (m : ℚ) * (1 / 2) + (k1 : ℚ) + (k2 : ℚ)) =
      ((2 + 2 * n + m + 2 * k1 + 2 * k2 : ℤ) : ℚ) / 2 := by
    push_cast; ring
  rw [h, pyRound1_half_integer]

/-- Claim C4: for every VBA procedure code string,
`ExcelMacroAnalyzer._calculate_complexity` returns exactly a base of 1,
plus one per case-insensitive decision-point regex match (`If...Then`,
`ElseIf`, `Case`, `For`, `Do...While`, `While`, `Select`, `And`, `Or`),
plus 0.5 times the maximum nesting depth (the running level clamped at 0),
plus 1 when `On Error` occurs and 2 when `Declare` occurs; the final
`round(_, 1)` is the identity on these half-integer values, and the
result is always at least 1. -/
theorem macro_complexity_formula (code : PyStr) :
    ExcelMacroAnalyzer.calculate_complexity code =
      1 + (ExcelMacroAnalyzer.decisionPointCount code : ℚ)
        + (ExcelMacroAnalyzer.maxNesting code : ℚ) * (1 / 2)
        + (if containsWordGapWord (lc "On") (lc "Error") code then 1 else 0)
        + (if containsWord (lc "Declare") code then 2 else 0)
    ∧ 1 ≤ ExcelMacroAnalyzer.calculate_complexity code := by
  have hn : (0 : ℚ) ≤ (ExcelMacroAnalyzer.decisionPointCount code : ℚ) :=
    Nat.cast_nonneg _
  have hm : (0 : ℚ) ≤ (ExcelMacroAnalyzer.maxNesting code : ℚ) :=
    Nat.cast_nonneg _
  have hite : ∀ (c : Prop) [Decidable c] (x a : ℚ),
      (if c then x + a else x) = x + (if c then a else 0) := by
    intro c inst x a
    split_ifs <;> ring
  obtain ⟨k1, hk1, hk1n⟩ : ∃ k1 : ℤ,
      (if containsWordGapWord (lc "On") (lc "Error") code then (1 : ℚ) else 0)
        = (k1 : ℚ) ∧ 0 ≤ k1 := by
    split_ifs
    · exact ⟨1, by norm_num⟩
    · exact ⟨0, by norm_num⟩
  obtain ⟨k2, hk2, hk2n⟩ : ∃ k2 : ℤ,
      (if containsWord (lc "Declare") code then (2 : ℚ) else 0) = (k2 : ℚ)
        ∧ 0 ≤ k2 := by
    split_ifs
    · exact ⟨2, by norm_num⟩
    · exact ⟨0, by norm_num⟩
  have hk1q : (0 : ℚ) ≤ (k1 : ℚ) := by exact_mod_cast hk1n
  have hk2q : (0 : ℚ) ≤ (k2 : ℚ) := by exact_mod_cast hk2n
  simp only [ExcelMacroAnalyzer.calculate_complexity]
  rw [hite, hite, hk1, hk2, pyRound1_one_add]
  constructor
  · rfl
  · linarith

theorem opsLoop_ge (ops : List PyStr) (formula : PyStr) :
    ∀ score, score ≤ XAF.opsLoop ops formula score := by
  induction ops with
  | nil => intro score; simp [XAF.opsLoop]
  | cons op rest ih =>
    intro score
    simp only [XAF.opsLoop]
    split_ifs
    · omega
    · exact le_trans (by omega) (ih (score + 1))
    · exact ih score

/-- Claim C2: `ConnectionAnalyzer._calculate_complexity_score` and
`ConnectionAnalyzer._calculate_powerquery_complexity` always return an
integer between 1 and 10 inclusive: both start from a base of 3, only
ever add bonuses, and cap the result at 10. -/
theorem connection_scores_in_range (conn_type : PyStr)
    (conn_string query_text : Option PyStr) (formula : PyStr) :
    (1 ≤ XAF.calculate_complexity_score conn_type conn_string query_text
      ∧ XAF.calculate_complexity_score conn_type conn_string query_text ≤ 10)
    ∧ (1 ≤ XAF.calculate_powerquery_complexity formula
      ∧ XAF.calculate_powerquery_complexity formula ≤ 10) := by
  constructor
  · simp only [XAF.calculate_complexity_score]
    split_ifs <;> omega
  · simp only [XAF.calculate_powerquery_complexity]
    split_ifs with hf
    · omega
    all_goals
      (have h1 := opsLoop_ge XAF.powerquery_operations formula
        (3 + min (pyCount (lc "    ") formula / 3) 3)
       omega)

theorem findTypeLoop_eq_find? (l : List (PyStr × List ECA.RegexPat)) (s : PyStr) :
    ECA.findTypeLoop l s =
      (l.find? fun e => e.2.any fun p => ECA.reSearchCI p s).map Prod.fst := by
  induction l with
  | nil => rfl
  | cons e rest ih =>
    obtain ⟨t, ps⟩ := e
    simp only [ECA.findTypeLoop]
    by_cases h : (ps.any fun p => ECA.reSearchCI p s) = true
    · rw [if_pos h]
      simp [List.find?_cons, h]
    · have h' : (ps.any fun p => ECA.reSearchCI p s) = false := by
        simpa using h
      rw [if_neg h, ih]
      simp [List.find?_cons, h']

/-- Claim C8: `_determine_connection_type` returns `'Unknown'` on the
empty string, and otherwise the first entry of `CONNECTION_PATTERNS`, in
its fixed iteration order (ODBC, OLEDB, Power Query, CSV, Web,
SharePoint, REST, Oracle, SQL Server, MySQL, PostgreSQL, Access, Text,
Excel), one of whose regexes matches the string case-insensitively,
falling back to `'Unknown'` when none matches. -/
theorem determine_connection_type_first_match (s : PyStr) :
    ECA.determine_connection_type s =
      (if s = [] then lc "Unknown"
       else ((ECA.CONNECTION_PATTERNS.find? fun e =>
          e.2.any fun p => ECA.reSearchCI p s).map Prod.fst).getD (lc "Unknown"))
    ∧ ECA.CONNECTION_PATTERNS.map Prod.fst =
      [lc "ODBC", lc "OLEDB", lc "Power Query", lc "CSV", lc "Web",
       lc "SharePoint", lc "REST", lc "Oracle", lc "SQL Server", lc "MySQL",
       lc "PostgreSQL", lc "Access", lc "Text", lc "Excel"] := by
  constructor
  · rw [ECA.determine_connection_type]
    split_ifs with h
    · rfl
    · rw [findTypeLoop_eq_find?]
      cases ECA.CONNECTION_PATTERNS.find? fun e =>
          e.2.any fun p => ECA.reSearchCI p s <;> rfl
  · rfl

theorem dedupLoop_sublist :
    ∀ (l : List XAF.FAConn) (seen : List PyStr), List.Sublist (XAF.dedupLoop l seen) l := by
  intro l
  induction l with
  | nil => intro seen; simp [XAF.dedupLoop]
  | cons c rest ih =>
    intro seen
    simp only [XAF.dedupLoop]
    split_ifs
    · exact (ih seen).trans (List.sublist_cons_self c rest)
    · exact (ih (c.Name :: seen)).cons₂ c

theorem dedupLoop_name_notin_seen :
    ∀ (l : List XAF.FAConn) (seen : List PyStr) (c : XAF.FAConn),
      c ∈ XAF.dedupLoop l seen → c.Name ∉ seen := by
  intro l
  induction l with
  | nil => intro seen c hc; simp [XAF.dedupLoop] at hc
  | cons d rest ih =>
    intro seen c hc
    simp only [XAF.dedupLoop] at hc
    split_ifs at hc with hd
    · exact ih seen c hc
    · rcases List.mem_cons.mp hc with rfl | hc'
      · exact hd
      · intro hmem
        exact ih _ c hc' (List.mem_cons_of_mem _ hmem)

theorem dedupLoop_names_nodup :
    ∀ (l : List XAF.FAConn) (seen : List PyStr),
      ((XAF.dedupLoop l seen).map XAF.FAConn.Name).Nodup := by
  intro l
  induction l with
  | nil => intro seen; simp [XAF.dedupLoop]
  | cons d rest ih =>
    intro seen
    simp only [XAF.dedupLoop]
    split_ifs with hd
    · exact ih seen
    · simp only [List.map_cons, List.nodup_cons]
      refine ⟨?_, ih (d.Name :: seen)⟩
      intro hmem
      rcases List.mem_map.mp hmem with ⟨c, hc, hname⟩
      exact dedupLoop_name_notin_seen _ _ _ hc (by rw [hname]; exact List.mem_cons_self _ _)

theorem dedupLoop_first_occurrence :
    ∀ (l : List XAF.FAConn) (seen : List PyStr) (c : XAF.FAConn),
      c ∈ XAF.dedupLoop l seen →
      ∃ pre post, l = pre ++ c :: post ∧ ∀ d ∈ pre, d.Name ≠ c.Name := by
  intro l
  induction l with
  | nil => intro seen c hc; simp [XAF.dedupLoop] at hc
  | cons d rest ih =>
    intro seen c hc
    simp only [XAF.dedupLoop] at hc
    split_ifs at hc with hd
    · obtain ⟨pre, post, hsplit, hpre⟩ := ih seen c hc
      have hcname : c.Name ∉ seen := dedupLoop_name_notin_seen _ _ _ hc
      refine ⟨d :: pre, post, by rw [hsplit]; rfl, ?_⟩
      intro e he
      rcases List.mem_cons.mp he with rfl | he'
      · intro heq
        exact hcname (heq ▸ hd)
      · exact hpre e he'
    · rcases List.mem_cons.mp hc with rfl | hc'
      · exact ⟨[], rest, rfl, by simp⟩
      · obtain ⟨pre, post, hsplit, hpre⟩ := ih (d.Name :: seen) c hc'
        have hcname : c.Name ∉ d.Name :: seen :=
          dedupLoop_name_notin_seen _ _ _ hc'
        refine ⟨d :: pre, post, by rw [hsplit]; rfl, ?_⟩
        intro e he
        rcases List.mem_cons.mp he with rfl | he'
        · intro heq
          exact hcname (heq ▸ List.mem_cons_self _ _)
        · exact hpre e he'

theorem dedupLoop_complete :
    ∀ (l : List XAF.FAConn) (seen : List PyStr) (c : XAF.FAConn), c ∈ l →
      c.Name ∈ seen ∨ ∃ d ∈ XAF.dedupLoop l seen, d.Name = c.Name := by
  intro l
  induction l with
  | nil => intro seen c hc; simp at hc
  | cons d rest ih =>
    intro seen c hc
    simp only [XAF.dedupLoop]
    rcases List.mem_cons.mp hc with rfl | hc'
    · split_ifs with hd
      · exact Or.inl hd
      · exact Or.inr ⟨c, List.mem_cons_self _ _, rfl⟩
    · split_ifs with hd
      · exact ih seen c hc'
      · rcases ih (d.Name :: seen) c hc' with hin | ⟨e, he, hename⟩
        · rcases List.mem_cons.mp hin with heq | hin'
          · exact Or.inr ⟨d, List.mem_cons_self _ _, heq.symm⟩
          · exact Or.inl hin'
        · exact Or.inr ⟨e, List.mem_cons_of_mem _ he, hename⟩

/-- Claim C9: the record list returned by
`ConnectionAnalyzer._analyze_excel_file` has pairwise-distinct names,
is a subsequence of the discovered list (relative order preserved), each
kept record is the first-discovered one with its name, every discovered
name survives, and `analyze_file` returns exactly this list for existing
`.xlsx`/`.xlsm` inputs. -/
theorem analyze_excel_file_dedup (raw : List XAF.FAConn) :
    ((XAF.analyze_excel_file raw).map XAF.FAConn.Name).Nodup
    ∧ List.Sublist (XAF.analyze_excel_file raw) raw
    ∧ (∀ c ∈ XAF.analyze_excel_file raw,
        ∃ pre post, raw = pre ++ c :: post ∧ ∀ d ∈ pre, d.Name ≠ c.Name)
    ∧ (∀ c ∈ raw, ∃ d ∈ XAF.analyze_excel_file raw, d.Name = c.Name)
    ∧ (∀ (path : PyStr) (csvRead : XAF.CsvReadResult),
        pyLower (XAF.pathSuffix (XAF.pathName path)) ∈ [lc ".xlsx", lc ".xlsm"] →
        XAF.analyze_file path true raw csvRead = .ok (XAF.analyze_excel_file raw)) := by
  refine ⟨dedupLoop_names_nodup raw [], dedupLoop_sublist raw [],
    fun c hc => dedupLoop_first_occurrence raw [] c hc,
    fun c hc => ?_, fun path csvRead hsuf => ?_⟩
  · rcases dedupLoop_complete raw [] c hc with hin | h
    · simp at hin
    · exact h
  · simp only [XAF.analyze_file]
    rw [if_neg (by simp), if_pos hsuf]

/-- Witness for C9: deduplication on a concrete discovery list with a
repeated name, routed through `analyze_file` for an `.xlsx` path. -/
theorem analyze_excel_file_dedup_witness :
    XAF.analyze_file (lc "book.xlsx") true XAF.demoRaw (.failure []) =
      .ok (XAF.analyze_excel_file XAF.demoRaw) :=
  (analyze_excel_file_dedup XAF.demoRaw).2.2.2.2 (lc "book.xlsx") (.failure [])
    (by decide)

/-- Counterexample to C10 as stated: for the path `data.csv` pointing to
no existing file, `analyze_file` raises `FileNotFoundError` before any
CSV handling, instead of returning a one-record list. -/
theorem analyze_file_csv_counterexample :
    XAF.analyze_file (lc "data.csv") false [] (.failure []) =
      .error (lc "FileNotFoundError") := rfl

/-- Claim C10 (amended): for every existing file whose pathlib suffix
lowercases to `.csv`, `analyze_file` returns a list of exactly one record
and never propagates an exception from CSV parsing: on any read or parse
failure the record has Type `CSV File (Error)` and Complexity Score 1,
and on success the Type is `CSV File` and the Complexity Score is
between 2 and 5 inclusive. -/
theorem analyze_file_csv_behavior (path : PyStr) (excelRaw : List XAF.FAConn)
    (csvRead : XAF.CsvReadResult)
    (hext : pyLower (XAF.pathSuffix (XAF.pathName path)) = lc ".csv") :
    ∃ rec, XAF.analyze_file path true excelRaw csvRead = .ok [rec]
      ∧ (∀ e, csvRead = .failure e →
          rec.Type' = lc "CSV File (Error)" ∧ rec.ComplexityScore = 1)
      ∧ (∀ columns, csvRead = .success columns →
          rec.Type' = lc "CSV File" ∧ 2 ≤ rec.ComplexityScore
            ∧ rec.ComplexityScore ≤ 5) := by
  have hmem : ¬ (lc ".csv" ∈ [lc ".xlsx", lc ".xlsm"]) := by decide
  refine ⟨XAF.analyze_csv_file path csvRead, ?_, ?_, ?_⟩
  · simp only [XAF.analyze_file]
    rw [if_neg (by simp), hext, if_neg hmem, if_pos rfl]
  · intro e he
    subst he
    exact ⟨rfl, rfl⟩
  · intro columns hc
    subst hc
    refine ⟨rfl, ?_, ?_⟩ <;>
      (simp only [XAF.analyze_csv_file]; split_ifs <;> omega)

/-- Witness for C10: an existing one-column CSV file whose single column
is named `date`, scored 3 (base 2 plus the date-column bonus). -/
theorem analyze_file_csv_behavior_witness :
    ∃ rec, XAF.analyze_file (lc "x.csv") true [] (.success [lc "date"]) =
        .ok [rec]
      ∧ (∀ e, (XAF.CsvReadResult.success [lc "date"]) = .failure e →
          rec.Type' = lc "CSV File (Error)" ∧ rec.ComplexityScore = 1)
      ∧ (∀ columns, (XAF.CsvReadResult.success [lc "date"]) = .success columns →
          rec.Type' = lc "CSV File" ∧ 2 ≤ rec.ComplexityScore
            ∧ rec.ComplexityScore ≤ 5) :=
  analyze_file_csv_behavior (lc "x.csv") [] (.success [lc "date"]) (by decide)

theorem sheetFormulaFold_le (n : Nat) :
    ∀ (l : List (Bool × List PyStr)) (acc : Nat),
      (∀ c ∈ l, (Prod.snd c).length = n) →
      l.foldl (fun acc c =>
          acc + (if c.1 then c.2.countP EUDA.cellIsFormula else 0)) acc
        ≤ acc + l.length * n := by
  intro l
  induction l with
  | nil => intro acc _; simp
  | cons c t ih =>
    intro acc h
    simp only [List.foldl_cons]
    have hc : (if c.1 then c.2.countP EUDA.cellIsFormula else 0) ≤ n := by
      split_ifs
      · exact le_trans (List.countP_le_length _) (le_of_eq (h c (List.mem_cons_self _ _)))
      · omega
    have := ih (acc + (if c.1 then c.2.countP EUDA.cellIsFormula else 0))
      (fun d hd => h d (List.mem_cons_of_mem _ hd))
    rw [List.length_cons, Nat.succ_mul]
    omega

theorem sheetFormulaCount_le (df : EUDA.SheetDF) :
    EUDA.sheetFormulaCount df ≤ df.nrows * df.cols.length := by
  have := sheetFormulaFold_le df.nrows df.cols 0 df.rect
  simpa [EUDA.sheetFormulaCount, Nat.mul_comm] using this

theorem sheetsLoopGuarded_density :
    ∀ (sheets : List (PyStr × Except PyStr EUDA.SheetDF)) (acc : EUDA.EudaAcc),
      acc.formula_cells ≤ acc.total_cells →
      (EUDA.sheetsLoopGuarded sheets acc).formula_cells
        ≤ (EUDA.sheetsLoopGuarded sheets acc).total_cells := by
  intro sheets
  induction sheets with
  | nil => intro acc h; exact h
  | cons p rest ih =>
    intro acc h
    obtain ⟨name, r⟩ := p
    cases r with
    | ok df =>
      simp only [EUDA.sheetsLoopGuarded]
      refine ih _ ?_
      simp only [EUDA.processSheetOk]
      have := sheetFormulaCount_le df
      omega
    | error e =>
      simp only [EUDA.sheetsLoopGuarded]
      exact ih _ h

theorem complexityScore_bounds (sheet_count : Nat) (acc : EUDA.EudaAcc)
    (h : acc.formula_cells ≤ acc.total_cells) :
    0 ≤ EUDA.complexityScore sheet_count acc
    ∧ EUDA.complexityScore sheet_count acc ≤ 100 := by
  simp only [EUDA.complexityScore]
  have hr : (0 : ℚ) ≤ (if acc.total_cells > 0 then
        (acc.formula_cells : ℚ) / (acc.total_cells : ℚ) else 0)
      ∧ (if acc.total_cells > 0 then
        (acc.formula_cells : ℚ) / (acc.total_cells : ℚ) else 0) ≤ 1 := by
    split_ifs with ht
    · constructor
      · exact div_nonneg (Nat.cast_nonneg _) (Nat.cast_nonneg _)
      · rw [div_le_one (by exact_mod_cast ht)]
        exact_mod_cast h
    · norm_num
  have hb : (min 10 sheet_count + min 10 acc.data_tables.length : ℚ) ≤ 20 := by
    have h1 : min 10 sheet_count ≤ 10 := min_le_left _ _
    have h2 : min 10 acc.data_tables.length ≤ 10 := min_le_left _ _
    push_cast
    have h1q : ((min 10 sheet_count : ℕ) : ℚ) ≤ 10 := by exact_mod_cast h1
    have h2q : ((min 10 acc.data_tables.length : ℕ) : ℚ) ≤ 10 := by exact_mod_cast h2
    push_cast at h1q h2q
    linarith
  have hb0 : (0 : ℚ) ≤ ((min 10 sheet_count + min 10 acc.data_tables.length : ℕ) : ℚ) :=
    Nat.cast_nonneg _
  have hf : (0 : ℚ) ≤ min 30 ((acc.formulas_count : ℚ) / 10)
      ∧ min 30 ((acc.formulas_count : ℚ) / 10) ≤ 30 := by
    constructor
    · exact le_min (by norm_num) (div_nonneg (Nat.cast_nonneg _) (by norm_num))
    · exact min_le_left _ _
  have hbq : ((min 10 sheet_count + min 10 acc.data_tables.length : ℕ) : ℚ) ≤ 20 := by
    push_cast
    push_cast at hb
    linarith
  constructor
  · apply roundHalfEven_nonneg
    have h50 : (0 : ℚ) ≤ (if acc.total_cells > 0 then
        (acc.formula_cells : ℚ) / (acc.total_cells : ℚ) else 0) * 50 :=
      mul_nonneg hr.1 (by norm_num)
    linarith [hb0, hf.1, h50]
  · apply roundHalfEven_le
    have h50 : (if acc.total_cells > 0 then
        (acc.formula_cells : ℚ) / (acc.total_cells : ℚ) else 0) * 50 ≤ 50 := by
      nlinarith [hr.2]
    push_cast
    push_cast at hbq
    linarith [hf.2, h50, hbq]

theorem sheetsLoopBare_eq_guarded :
    ∀ (sheets : List (PyStr × Except PyStr EUDA.SheetDF)) (acc : EUDA.EudaAcc),
      (∀ p ∈ sheets, (Prod.snd p).isOk = true) →
      EUDA.sheetsLoopBare sheets acc = .ok (EUDA.sheetsLoopGuarded sheets acc) := by
  intro sheets
  induction sheets with
  | nil => intro acc _; rfl
  | cons p rest ih =>
    intro acc h
    obtain ⟨name, r⟩ := p
    cases r with
    | ok df =>
      simp only [EUDA.sheetsLoopBare, EUDA.sheetsLoopGuarded]
      exact ih _ (fun q hq => h q (List.mem_cons_of_mem _ hq))
    | error e =>
      have := h (name, .error e) (List.mem_cons_self _ _)
      simp [Except.isOk, Except.toBool] at this

/-- Claim C3: for every workbook whose sheets all load, the
`complexity_score` computed by `analyze_excel_euda` is an integer (the
result of Python's `round`) between 0 and 100: the sheet and data-table
components are capped at 10 each, the formula component at 30, and the
density ratio is at most 1 because counted formula cells never exceed
total cells, with the division guarded at zero total. -/
theorem euda_complexity_score_in_range (inp : EUDA.EudaInput)
    (sheets : List (PyStr × Except PyStr EUDA.SheetDF))
    (hopen : inp.openResult = .ok sheets)
    (hok : ∀ p ∈ sheets, (Prod.snd p).isOk = true) :
    ∃ a a', EUDA.analyze_excel_euda_improved inp = .analysis a
      ∧ EUDA.analyze_excel_euda_chatbot inp = .analysis a'
      ∧ 0 ≤ a.complexity_score ∧ a.complexity_score ≤ 100
      ∧ a'.complexity_score = a.complexity_score := by
  simp only [EUDA.analyze_excel_euda_improved, EUDA.analyze_excel_euda_chatbot,
    hopen, sheetsLoopBare_eq_guarded sheets _ hok]
  refine ⟨_, _, rfl, rfl, ?_, ?_, rfl⟩
  · exact (complexityScore_bounds _ _ (sheetsLoopGuarded_density sheets _ le_rfl)).1
  · exact (complexityScore_bounds _ _ (sheetsLoopGuarded_density sheets _ le_rfl)).2

/-- Witness for C3: the score range theorem applied to a one-sheet
workbook that loads successfully. -/
theorem euda_complexity_score_in_range_witness :
    ∃ a a', EUDA.analyze_excel_euda_improved EUDA.demoWorkbook = .analysis a
      ∧ EUDA.analyze_excel_euda_chatbot EUDA.demoWorkbook = .analysis a'
      ∧ 0 ≤ a.complexity_score ∧ a.complexity_score ≤ 100
      ∧ a'.complexity_score = a.complexity_score :=
  euda_complexity_score_in_range EUDA.demoWorkbook _ rfl (by decide)

/-- Counterexample to C6 as stated: on a macro-suffixed workbook with no
sheets, the chatbot variant returns an extra risk entry
(`Macros should be security reviewed`), so the three duplicated
`analyze_excel_euda` functions do not all return the same result. -/
theorem euda_variants_counterexample :
    EUDA.analyze_excel_euda_improved EUDA.cxWorkbook ≠
      EUDA.analyze_excel_euda_chatbot EUDA.cxWorkbook := by
  intro h
  simp only [EUDA.analyze_excel_euda_improved, EUDA.analyze_excel_euda_chatbot,
    EUDA.cxWorkbook, EUDA.sheetsLoopGuarded, EUDA.sheetsLoopBare,
    show EUDA.macrosDetected (lc "report.xlsm") = true from by decide,
    if_true] at h
  have h2 := congrArg (fun r =>
    match r with
    | EUDA.EudaResult.analysis a => a.risk_areas
    | EUDA.EudaResult.errorRecord _ => []) h
  simp only at h2
  have h3 := congrArg List.length h2
  simp [List.length_append] at h3

/-- Claim C6 (amended): the `analyze_excel_euda` copies in
improved-euda-analyzer.py and robust-euda-analyzer.py agree on every
input; the euda-analyzer-chatbot.py copy agrees on `complexity_score`,
`formulas_count` and `data_tables` whenever every sheet loads, but its
`risk_areas` carries one extra macro entry for macro-suffixed files, and
a failing sheet makes it return a bare error record instead of
per-sheet error entries. -/
theorem euda_variants_agreement (inp : EUDA.EudaInput) :
    EUDA.analyze_excel_euda_improved inp = EUDA.analyze_excel_euda_robust inp
    ∧ ∀ sheets, inp.openResult = .ok sheets →
        (∀ p ∈ sheets, (Prod.snd p).isOk = true) →
        ∃ a, EUDA.analyze_excel_euda_improved inp = .analysis a
          ∧ EUDA.analyze_excel_euda_chatbot inp = .analysis
              { a with risk_areas := a.risk_areas ++
                  (if a.macros_detected then
                    [lc "Macros should be security reviewed"] else []) } := by
  refine ⟨rfl, fun sheets hopen hok => ?_⟩
  simp only [EUDA.analyze_excel_euda_improved, EUDA.analyze_excel_euda_chatbot,
    hopen, sheetsLoopBare_eq_guarded sheets _ hok]
  exact ⟨_, rfl, rfl⟩

/-- Witness for C6: the agreement theorem applied to a macro-carrying
workbook whose single sheet loads successfully. -/
theorem euda_variants_agreement_witness :
    EUDA.analyze_excel_euda_improved EUDA.agreeWorkbook =
      EUDA.analyze_excel_euda_robust EUDA.agreeWorkbook
    ∧ ∃ a, EUDA.analyze_excel_euda_improved EUDA.agreeWorkbook = .analysis a
        ∧ EUDA.analyze_excel_euda_chatbot EUDA.agreeWorkbook = .analysis
            { a with risk_areas := a.risk_areas ++
                (if a.macros_detected then
                  [lc "Macros should be security reviewed"] else []) } :=
  ⟨(euda_variants_agreement EUDA.agreeWorkbook).1,
   (euda_variants_agreement EUDA.agreeWorkbook).2 _ rfl (by decide)⟩

theorem demoConn_tally_pos : 0 < ECA.complexityTally ECA.demoConn := by
  have hcs : (ECA.demoConn.ConnectionString ≠ ([] : PyStr)) := by decide
  have hqt : ¬ (ECA.demoConn.QueryText ≠ ([] : PyStr)) := by decide
  have hb1 : pyIn (lc "Trusted_Connection") ECA.demoConn.ConnectionString = false := by
    decide
  have hb2 : pyIn (lc "Integrated Security") ECA.demoConn.ConnectionString = false := by
    decide
  have hb3 : pyIn (lc "User ID") ECA.demoConn.ConnectionString = false := by decide
  have hb4 : pyIn (lc "UID") ECA.demoConn.ConnectionString = false := by decide
  have hb5 : pyIn (lc "Password") ECA.demoConn.ConnectionString = false := by decide
  have hb6 : pyIn (lc "PWD") ECA.demoConn.ConnectionString = false := by decide
  have hlen : ECA.demoConn.ConnectionString.length = 9 := by decide
  have htds : ECA.demoConn.TargetDataSources.length = 0 := by decide
  simp only [ECA.complexityTally, eq_true hcs, eq_false hqt, hb1, hb2, hb3,
    hb4, hb5, hb6, hlen, htds, if_true, if_false, Bool.or_self,
    Bool.false_eq_true, Nat.cast_zero, Nat.cast_ofNat]
  have hmin : (0 : ℚ) < min ((9 : ℚ) / 50) 5 := lt_min (by norm_num) (by norm_num)
  norm_num

/-- Evaluation of `_calculate_complexity` on a record with a non-empty
connection string: the positive tally reaches the `math.log` call of the
module that never imports `math`, so a `NameError` is raised. -/
theorem demoConn_raises :
    ECA.calculate_complexity ECA.demoConn =
      .error (lc "NameError: name math is not defined") := by
  simp only [ECA.calculate_complexity, if_pos demoConn_tally_pos]

/-- Claim C1 (code bug): `_calculate_complexity` is specified to set
`ComplexityScore` to `min(round(1 + log2(score + 1), 1), 10)` without
error, but src/excel-connection-analyzer.py never imports `math`, so the
positive-tally branch raises `NameError` instead; only the zero-tally
branch returns, setting the score to 0. -/
theorem calculate_complexity_missing_math :
    ECA.calculate_complexity ECA.demoConn =
      .error (lc "NameError: name math is not defined")
    ∧ ECA.calculate_complexity { ECA.blankConn with Name := lc "Empty" } =
      .ok { ECA.blankConn with Name := lc "Empty", ComplexityScore := 0 } := by
  constructor
  · exact demoConn_raises
  · have hz : ¬ (0 < ECA.complexityTally { ECA.blankConn with Name := lc "Empty" }) := by
      have : ECA.complexityTally { ECA.blankConn with Name := lc "Empty" } = 0 := by
        simp [ECA.complexityTally, ECA.blankConn]
      rw [this]
      norm_num
    simp only [ECA.calculate_complexity, if_neg hz]

/-- Counterexample to C5 as stated: an exception raised while analyzing
(here the `NameError` from the missing `math` import during
post-processing) propagates out of `ExcelConnectionAnalyzer.analyze`
after being logged, instead of the method returning normally. -/
theorem analyze_propagates_exception :
    ECA.analyze (.ok [ECA.demoConn]) =
      .error (lc "NameError: name math is not defined") := by
  simp only [ECA.analyze, ECA.postProcessAll, ECA.postProcessConn, demoConn_raises]

/-- Claim C5 (amended): every exception is caught and logged inside the
analyzers, and `analyze_excel_euda` returns an error record normally,
but `ExcelConnectionAnalyzer.analyze` re-raises the exception to its
caller after logging it. -/
theorem analyzer_error_discipline :
    (∀ e : PyStr, ECA.analyze (.error e) = .error e)
    ∧ (∀ (conns : List ECA.Conn) (e : PyStr),
        ECA.postProcessAll conns = .error e → ECA.analyze (.ok conns) = .error e)
    ∧ (∀ (inp : EUDA.EudaInput) (e : PyStr), inp.openResult = .error e →
        EUDA.analyze_excel_euda_improved inp = .errorRecord e
        ∧ EUDA.analyze_excel_euda_robust inp = .errorRecord e
        ∧ EUDA.analyze_excel_euda_chatbot inp = .errorRecord e) := by
  refine ⟨fun e => rfl, fun conns e h => ?_, fun inp e h => ?_⟩
  · simp only [ECA.analyze, h]
  · refine ⟨?_, ?_, ?_⟩ <;>
      simp only [EUDA.analyze_excel_euda_improved, EUDA.analyze_excel_euda_robust,
        EUDA.analyze_excel_euda_chatbot, h]

/-- Witness for C5: the discipline theorem applied to a failing workbook
open and to the record list whose post-processing raises. -/
theorem analyzer_error_discipline_witness :
    ECA.analyze (.ok [ECA.demoConn]) =
      .error (lc "NameError: name math is not defined")
    ∧ EUDA.analyze_excel_euda_improved
        { file_name := lc "f.xlsx", openResult := .error (lc "boom") } =
      .errorRecord (lc "boom") :=
  ⟨analyzer_error_discipline.2.1 [ECA.demoConn] _
      (by simp only [ECA.postProcessAll, ECA.postProcessConn, demoConn_raises]),
   (analyzer_error_discipline.2.2
      { file_name := lc "f.xlsx", openResult := .error (lc "boom") } _ rfl).1⟩

theorem findTypeLoop_mem :
    ∀ (l : List (PyStr × List ECA.RegexPat)) (s t : PyStr),
      ECA.findTypeLoop l s = some t → t ∈ l.map Prod.fst := by
  intro l
  induction l with
  | nil => intro s t h; simp [ECA.findTypeLoop] at h
  | cons e rest ih =>
    intro s t h
    obtain ⟨ty, ps⟩ := e
    simp only [ECA.findTypeLoop] at h
    split_ifs at h with hm
    · simp only [Option.some.injEq] at h
      simp [h]
    · simp only [List.map_cons, List.mem_cons]
      exact Or.inr (ih s t h)

theorem determine_connection_type_ne_nil (s : PyStr) :
    ECA.determine_connection_type s ≠ [] := by
  rw [ECA.determine_connection_type]
  split_ifs with h
  · decide
  · cases hf : ECA.findTypeLoop ECA.CONNECTION_PATTERNS s with
    | none => simp only [hf]; decide
    | some t =>
      simp only [hf]
      have hmem := findTypeLoop_mem ECA.CONNECTION_PATTERNS s t hf
      have hall : ∀ x ∈ ECA.CONNECTION_PATTERNS.map Prod.fst, x ≠ ([] : PyStr) := by
        decide
      exact hall t hmem

theorem foldl_tables_preserves_Type (tns : List PyStr) :
    ∀ c : ECA.Conn,
      ((tns.foldl
          (fun c tn => if tn ≠ [] then { c with WorksheetName := tn } else c)
          c) : ECA.Conn).Type' = c.Type' := by
  induction tns with
  | nil => intro c; rfl
  | cons t rest ih =>
    intro c
    simp only [List.foldl_cons]
    rw [ih]
    split_ifs <;> rfl

theorem infer_purpose_description_ne_nil (c : ECA.Conn) :
    (ECA.infer_purpose c).PurposeDescription ≠ [] := by
  simp only [ECA.infer_purpose]
  split_ifs
  · simp only [ne_eq, List.append_eq_nil]
    rintro ⟨h1, -⟩
    exact absurd h1 (by decide)
  · decide

theorem infer_purpose_preserves_Type (c : ECA.Conn) :
    (ECA.infer_purpose c).Type' = c.Type' := rfl

theorem mkConnectionsXmlConn_Type (name dbPrConn commandText : Option PyStr)
    (tableNames : List PyStr) :
    (ECA.mkConnectionsXmlConn name dbPrConn commandText tableNames).Type' ≠ [] := by
  simp only [ECA.mkConnectionsXmlConn]
  split_ifs <;>
    (try cases dbPrConn) <;>
    (try cases commandText) <;>
    simp only [foldl_tables_preserves_Type] <;>
    (try split_ifs) <;>
    first
      | exact determine_connection_type_ne_nil _
      | decide
      | (simp only [ECA.blankConn]; decide)

theorem queryXmlBase_Type (queryName connStr commandText : Option PyStr) :
    (ECA.queryXmlBase queryName connStr commandText).Type' ≠ [] := by
  simp only [ECA.queryXmlBase]
  cases queryName <;> cases connStr <;> cases commandText <;>
    simp only [] <;>
    (try split_ifs) <;>
    first
      | exact determine_connection_type_ne_nil _
      | (show ECA.blankConn.Type' ≠ []
         decide)

theorem mkQueryXmlConn_Type (queryName connStr commandText : Option PyStr)
    (c : ECA.Conn) (h : ECA.mkQueryXmlConn queryName connStr commandText = some c) :
    c.Type' ≠ [] := by
  simp only [ECA.mkQueryXmlConn] at h
  split_ifs at h
  injection h with h'
  subst h'
  exact queryXmlBase_Type queryName connStr commandText

theorem mkCustomXmlConn_Type (idx : Nat) (attrName attrValue : PyStr)
    (c : ECA.Conn) (h : ECA.mkCustomXmlConn idx attrName attrValue = some c) :
    c.Type' ≠ [] := by
  simp only [ECA.mkCustomXmlConn] at h
  split_ifs at h
  injection h with h'
  subst h'
  exact determine_connection_type_ne_nil _

theorem mkCustomXmlQuery_Type (idx : Nat) (text : PyStr) (c : ECA.Conn)
    (h : ECA.mkCustomXmlQuery idx text = some c) : c.Type' ≠ [] := by
  have hSQL : lc "SQL" ≠ ([] : PyStr) := by decide
  simp only [ECA.mkCustomXmlQuery] at h
  split_ifs at h
  injection h with h'
  subst h'
  exact hSQL

theorem mkPowerQueryConn_Type (nameSuffix m_formula : PyStr)
    (regexSources : List PyStr) (c : ECA.Conn)
    (h : ECA.mkPowerQueryConn nameSuffix m_formula regexSources = some c) :
    c.Type' ≠ [] := by
  have hPQ : lc "Power Query" ≠ ([] : PyStr) := by decide
  have hCSV : lc "CSV" ≠ ([] : PyStr) := by decide
  have hXL : lc "Excel" ≠ ([] : PyStr) := by decide
  have hSQL : lc "SQL Server" ≠ ([] : PyStr) := by decide
  have hWeb : lc "Web" ≠ ([] : PyStr) := by decide
  simp only [ECA.mkPowerQueryConn] at h
  split_ifs at h
  injection h with h'
  subst h'
  simp only [ECA.powerQueryRefine]
  split_ifs <;> first
    | exact hCSV | exact hXL | exact hSQL | exact hWeb | exact hPQ

theorem sheetConnBase_Type (idx : Nat) (sheet_name : PyStr)
    (queryPrConnStr : Option PyStr) :
    (ECA.sheetConnBase idx sheet_name queryPrConnStr).Type' ≠ [] := by
  simp only [ECA.sheetConnBase]
  cases queryPrConnStr <;>
    simp only [] <;>
    (try split_ifs) <;>
    first
      | exact determine_connection_type_ne_nil _
      | (show ECA.blankConn.Type' ≠ []
         decide)

theorem mkSheetConn_Type (idx : Nat) (sheet_name : PyStr)
    (queryPrConnStr : Option PyStr) (c : ECA.Conn)
    (h : ECA.mkSheetConn idx sheet_name queryPrConnStr = some c) :
    c.Type' ≠ [] := by
  simp only [ECA.mkSheetConn] at h
  split_ifs at h
  injection h with h'
  subst h'
  exact sheetConnBase_Type idx sheet_name queryPrConnStr

theorem mkTextConn_Type (source : PyStr) (idx : Nat)
    (patIdx : Fin ECA.textPatternTable.length) (conn_string : PyStr)
    (g1 g2 : Option PyStr) :
    (ECA.mkTextConn source idx patIdx conn_string g1 g2).Type' ≠ [] := by
  have hall : ∀ x ∈ ECA.textPatternTable, Prod.fst x ≠ ([] : PyStr) := by decide
  exact hall _ (List.get_mem ECA.textPatternTable patIdx.1 patIdx.2)

theorem mkSqlQueryConn_Type (source : PyStr) (idx : Nat) (rawMatch : PyStr)
    (tables : List PyStr) :
    (ECA.mkSqlQueryConn source idx rawMatch tables).Type' ≠ [] := by
  have hSQL : lc "SQL" ≠ ([] : PyStr) := by decide
  exact hSQL

theorem postProcessConn_ok (c c' : ECA.Conn)
    (h : ECA.postProcessConn c = .ok c') :
    c'.Type' = c.Type' ∧ c'.PurposeDescription ≠ [] := by
  simp only [ECA.postProcessConn, ECA.calculate_complexity] at h
  split_ifs at h
  injection h with h'
  subst h'
  exact ⟨infer_purpose_preserves_Type _, infer_purpose_description_ne_nil _⟩

/-- Claim C7: every record created by any extraction path of
`ExcelConnectionAnalyzer` is the full eight-field dict (the `Conn`
record carries `Name`, `Type`, `ConnectionString`, `TargetDataSources`,
`QueryText`, `WorksheetName`, `ComplexityScore`, `PurposeDescription`
by construction), its `Type` is a non-empty string on every path (with
`'Unknown'` as the fallback), and after the post-processing that a
returned list has gone through, `PurposeDescription` is a non-empty
string (with `'Unknown purpose'` as the fallback) while `Type` is
unchanged. -/
theorem connection_records_normalized :
    (∀ name dbPrConn commandText tableNames,
      (ECA.mkConnectionsXmlConn name dbPrConn commandText tableNames).Type' ≠ [])
    ∧ (∀ queryName connStr commandText c,
        ECA.mkQueryXmlConn queryName connStr commandText = some c → c.Type' ≠ [])
    ∧ (∀ idx attrName attrValue c,
        ECA.mkCustomXmlConn idx attrName attrValue = some c → c.Type' ≠ [])
    ∧ (∀ idx text c, ECA.mkCustomXmlQuery idx text = some c → c.Type' ≠ [])
    ∧ (∀ nameSuffix m_formula regexSources c,
        ECA.mkPowerQueryConn nameSuffix m_formula regexSources = some c →
          c.Type' ≠ [])
    ∧ (∀ idx sheet_name queryPrConnStr c,
        ECA.mkSheetConn idx sheet_name queryPrConnStr = some c → c.Type' ≠ [])
    ∧ (∀ source idx patIdx conn_string g1 g2,
        (ECA.mkTextConn source idx patIdx conn_string g1 g2).Type' ≠ [])
    ∧ (∀ source idx rawMatch tables,
        (ECA.mkSqlQueryConn source idx rawMatch tables).Type' ≠ [])
    ∧ (∀ c c', ECA.postProcessConn c = .ok c' →
        c'.Type' = c.Type' ∧ c'.PurposeDescription ≠ []) :=
  ⟨mkConnectionsXmlConn_Type,
   mkQueryXmlConn_Type,
   mkCustomXmlConn_Type,
   mkCustomXmlQuery_Type,
   mkPowerQueryConn_Type,
   mkSheetConn_Type,
   mkTextConn_Type,
   mkSqlQueryConn_Type,
   postProcessConn_ok⟩

/-- Witness for C7: the normalization theorem applied to the record of a
concrete `<connection>` element and to a concrete post-processing run. -/
theorem connection_records_normalized_witness :
    (ECA.mkConnectionsXmlConn (some (lc "Conn1")) (some (lc "DSN=HR"))
      none []).Type' ≠ []
    ∧ ((ECA.infer_purpose { ECA.blankConn with ComplexityScore := 0 }).Type' =
        ECA.blankConn.Type'
      ∧ (ECA.infer_purpose
          { ECA.blankConn with ComplexityScore := 0 }).PurposeDescription ≠ []) :=
  ⟨connection_records_normalized.1 (some (lc "Conn1")) (some (lc "DSN=HR")) none [],
   connection_records_normalized.2.2.2.2.2.2.2.2 ECA.blankConn _ (by
     have hz : ¬ (0 < ECA.complexityTally ECA.blankConn) := by
       have : ECA.complexityTally ECA.blankConn = 0 := by
         simp [ECA.complexityTally, ECA.blankConn]
       rw [this]
       norm_num
     simp only [ECA.postProcessConn, ECA.calculate_complexity, if_neg hz])⟩

end EudaAnalysis